import Mathlib

/-!
Verification development for the RAMSES RF Prometheus exporter
(`honeywell_radio_exporter/ramses_prometheus_exporter.py`).

The Python exporter is shallowly embedded: the mutable exporter object
(`RamsesPrometheusExporter`) becomes an explicit state record `ExpState`,
Prometheus counters/gauges become association lists from label tuples to
values, and the message handler `_capture_message_metrics` (together with
its wrapper `message_logger_and_metrics`) becomes a state-transformer over
`ExpState`.  Numeric payload values and timestamps are modelled by `Rat`
(only conversion success/failure and pass-through of values matter here,
never rounding), and Python exceptions that escape an extraction rule's
`except` clause are modelled by an explicit `PyErr` result.
-/

set_option synthInstance.maxSize 4096

namespace Ramses

/-- Primitive (scalar) payload values: the loosely-typed JSON-like scalars
carried by RAMSES message payload fields. -/
inductive Prim where
  | pStr (s : String)
  | pNum (q : Rat)
  | pBool (b : Bool)
  | pNull
  deriving DecidableEq, Repr

/-- A payload field value: a scalar or a flat list/tuple of scalars (the
shapes that actually occur in the exporter's extraction rules, e.g. the
fault `log_entry` tuple and the `devices` id list). -/
inductive PValue where
  | atom (a : Prim)
  | vList (xs : List Prim)
  deriving DecidableEq, Repr

/-- Python truthiness of a payload value (`if value:`). -/
def PValue.truthy : PValue → Bool
  | .atom (.pStr s) => s ≠ ""
  | .atom (.pNum q) => q ≠ 0
  | .atom (.pBool b) => b
  | .atom .pNull => false
  | .vList xs => xs ≠ []

/-- A message payload: a structured mapping (Python `dict`, modelled as an
ordered association list over field names) or a non-dict value (lists of
scalars); `isinstance(msg.payload, dict)` discriminates the two. -/
inductive Payload where
  | pDict (fields : List (String × PValue))
  | pList (xs : List PValue)
  deriving DecidableEq, Repr

/-- Python truthiness of a payload (`if msg.payload:`): empty containers
are falsy. -/
def Payload.truthy : Payload → Bool
  | .pDict f => f ≠ []
  | .pList xs => xs ≠ []

/-- Lookup in an ordered association list (Python `dict` access /
`dict.get`): value of the first matching key. -/
def alook {κ α : Type} [DecidableEq κ] : List (κ × α) → κ → Option α
  | [], _ => none
  | p :: rest, k => if p.1 = k then some p.2 else alook rest k

/-- Assignment in an ordered association list (Python `d[k] = v`): replace
the value of an existing key in place, otherwise append at the end —
matching `dict` insertion-order semantics. -/
def aset {κ α : Type} [DecidableEq κ] (l : List (κ × α)) (k : κ) (v : α) : List (κ × α) :=
  match l with
  | [] => [(k, v)]
  | p :: rest => if p.1 = k then (k, v) :: rest else p :: aset rest k v

/-- Current value of a Prometheus counter series (absent series read 0). -/
def cval {κ : Type} [DecidableEq κ] (l : List (κ × Nat)) (k : κ) : Nat :=
  (alook l k).getD 0

/-- Model of `Counter.labels(...).inc()`. -/
def cinc {κ : Type} [DecidableEq κ] (l : List (κ × Nat)) (k : κ) : List (κ × Nat) :=
  aset l k (cval l k + 1)

/-- Model of `Gauge.labels(...).set(v)`. -/
def gset {κ : Type} [DecidableEq κ] (l : List (κ × Rat)) (k : κ) (v : Rat) : List (κ × Rat) :=
  aset l k v

/-- Digit accumulation for `parseFloat?`. -/
def natOfDigits (cs : List Char) : Nat :=
  cs.foldl (fun acc c => acc * 10 + (c.toNat - 48)) 0

/-- Model of Python `str.startswith` (structural, over character lists). -/
def pyStartsWith (s pre : String) : Bool :=
  pre.toList.isPrefixOf s.toList

/-- Model of Python `str.strip()`: drop surrounding whitespace. -/
def pyStrip (s : String) : List Char :=
  ((s.toList.dropWhile Char.isWhitespace).reverse.dropWhile Char.isWhitespace).reverse

/-- Model of Python `float(s)` on strings: an optional sign followed by a
decimal literal (digits with an optional fractional part), surrounding
whitespace stripped.  Exotic forms accepted by CPython (exponents,
`inf`/`nan`, underscores) never occur in this protocol's payloads and are
modelled as non-numeric. -/
def parseFloat? (s : String) : Option Rat :=
  let cs := pyStrip s
  let sgn : Rat := if cs.head? = some '-' then -1 else 1
  let cs := if cs.head? = some '-' ∨ cs.head? = some '+' then cs.drop 1 else cs
  match cs.splitOn '.' with
  | [ip] =>
      if ip ≠ [] ∧ ip.all Char.isDigit then some (sgn * (natOfDigits ip : Rat))
      else none
  | [ip, fp] =>
      if (ip ≠ [] ∨ fp ≠ []) ∧ ip.all Char.isDigit ∧ fp.all Char.isDigit then
        some (sgn * ((natOfDigits ip : Rat) + (natOfDigits fp : Rat) / ((10 : Rat) ^ fp.length)))
      else none
  | _ => none

/-- Model of Python `str(value)` for scalar payload values. -/
def Prim.pyStr : Prim → String
  | .pStr s => s
  | .pNum q => toString q
  | .pBool b => if b then "True" else "False"
  | .pNull => "None"

/-- Model of Python `str(value)` for payload values (the mode labels fed
through it are strings in every event this exporter receives; the
non-string renderings are best-effort). -/
def PValue.pyStr : PValue → String
  | .atom a => a.pyStr
  | .vList xs => "(" ++ String.intercalate ", " (xs.map Prim.pyStr) ++ ")"

/-- Model of Python `float(value)`: numbers pass through, booleans coerce
to 0/1, numeric strings parse; anything else raises
`ValueError`/`TypeError`, modelled as `none`. -/
def toFloat? : PValue → Option Rat
  | .atom (.pNum q) => some q
  | .atom (.pBool b) => some (if b then 1 else 0)
  | .atom (.pStr s) => parseFloat? s
  | _ => none

/-- One entry of the zone/device name cache: the Python dict
with keys `name`, `last_seen`, `first_seen`. -/
structure CacheEntry where
  name : String
  lastSeen : Rat
  firstSeen : Rat
  deriving DecidableEq, Repr

/-- The external `ramses_rf` gateway as consulted by the exporter: device
aliases (`device.traits["alias"]`, truthy aliases recorded), controller
zones (`gateway._tcs.zones` as index/name pairs), the device list (for
`len(gateway.devices)`) and the gateway version. -/
structure Gateway where
  aliases : List (String × String)
  zones : List (String × String)
  devices : List String
  version : Option String
  deriving DecidableEq, Repr

/-- External collaborators of the message handler: the
`CODE_NAMES`/`CODES_SCHEMA` name tables of `ramses_tx` (collapsed into one
string-keyed table) and the optional gateway. -/
structure Env where
  codeNames : List (String × String)
  gateway : Option Gateway
  deriving DecidableEq, Repr

/-- Ambient context of one handler invocation: the environment plus the
values produced by `time.time()` and `datetime.now().isoformat()` during
the call (the wall-clock reads within a single dispatch are modelled by
one timestamp). -/
structure Ctx where
  env : Env
  now : Rat
  nowIso : String
  deriving DecidableEq, Repr

/-- One RAMSES message as seen by the handler; each field is optional to
model absent/`None` attributes, defaulted to the sentinel on extraction. -/
structure Msg where
  code : Option String
  verb : Option String
  src : Option String
  dst : Option String
  payload : Option Payload
  deriving DecidableEq, Repr

/-- Extraction `str(msg.code) if msg.code else "unknown"`. -/
def msgCode (msg : Msg) : String := msg.code.getD "unknown"

/-- Extraction `str(msg.verb) if msg.verb else "unknown"`. -/
def msgVerb (msg : Msg) : String := msg.verb.getD "unknown"

/-- Extraction `str(msg.src.id) if msg.src ... else "unknown"`. -/
def srcDevice (msg : Msg) : String := msg.src.getD "unknown"

/-- Extraction `str(msg.dst.id) if msg.dst ... else "unknown"`. -/
def dstDevice (msg : Msg) : String := msg.dst.getD "unknown"

/-- Embedding of `_get_code_name`: the `CODE_NAMES` lookup with fallback
to the string form of the code. -/
def getCodeName (env : Env) : Option String → String
  | none => "unknown"
  | some c => (alook env.codeNames c).getD c

/-- Embedding of `_get_device_name`: cache first, then the gateway alias
trait, else the sentinel. -/
def getDeviceName (env : Env) (cache : List (String × CacheEntry)) (id : String) : String :=
  if id = "" ∨ id = "unknown" then "unknown"
  else
    match alook cache id with
    | some e => e.name
    | none =>
      match env.gateway with
      | none => "unknown"
      | some gw =>
        match alook gw.aliases id with
        | some a => if a ≠ "" then a else "unknown"
        | none => "unknown"

/-- Embedding of `_get_zone_name` on a string index: cache first, then the
first gateway zone with that index and a truthy name, else the sentinel. -/
def getZoneNameStr (env : Env) (cache : List (String × CacheEntry)) (idx : String) : String :=
  if idx = "" ∨ idx = "unknown" then "unknown"
  else
    match alook cache idx with
    | some e => e.name
    | none =>
      match env.gateway with
      | none => "unknown"
      | some gw =>
        match gw.zones.find? (fun z => decide (z.1 = idx) && decide (z.2 ≠ "")) with
        | some z => z.2
        | none => "unknown"

/-- Embedding of `_get_zone_name` on a raw payload value: a non-string
index is either falsy or misses every string-keyed lookup, so it resolves
to the sentinel. -/
def getZoneNameP (env : Env) (cache : List (String × CacheEntry)) : PValue → String
  | .atom (.pStr s) => getZoneNameStr env cache s
  | _ => "unknown"

/-- Embedding of `_get_zone_for_device`: the first zone (in insertion
order) with any role whose device list contains the id. -/
def getZoneForDevice (zmap : List (String × List (String × List String))) (id : String) :
    String :=
  if id = "" ∨ id = "unknown" then "unknown"
  else
    match zmap.find? (fun zr => zr.2.any (fun rl => rl.2.contains id)) with
    | some zr => zr.1
    | none => "unknown"

/-- Embedding of the local `is_boiler` classifier: device type 13: (BDR
electrical relay) or 10: (OpenTherm bridge). -/
def isBoiler (id : String) : Bool :=
  pyStartsWith id "13:" || pyStartsWith id "10:"

/-- The JSON document written by `_save_cache` (entries serialized as
objects of primitive fields; the textual layer of `json.dump`/`json.load`
is modelled as identity on this AST, which is exact for these shapes). -/
structure CacheDoc where
  zones : List (String × List (String × Prim))
  devices : List (String × List (String × Prim))
  lastUpdated : String
  deriving DecidableEq, Repr

/-- Serialization of one cache entry into its JSON object. -/
def encodeEntry (e : CacheEntry) : List (String × Prim) :=
  [("name", .pStr e.name), ("last_seen", .pNum e.lastSeen), ("first_seen", .pNum e.firstSeen)]

/-- Reading one entry object back from JSON.  (The Python loader keeps the
raw dicts; entries written by `_save_cache` always decode.) -/
def decodeEntry? (o : List (String × Prim)) : Option CacheEntry :=
  match alook o "name", alook o "last_seen", alook o "first_seen" with
  | some (.pStr n), some (.pNum l), some (.pNum f) => some ⟨n, l, f⟩
  | _, _, _ => none

/-- Serialization of a whole name-cache mapping. -/
def encodeEntries (l : List (String × CacheEntry)) : List (String × List (String × Prim)) :=
  l.map (fun p => (p.1, encodeEntry p.2))

/-- Deserialization of a whole name-cache mapping. -/
def decodeEntries (l : List (String × List (String × Prim))) : List (String × CacheEntry) :=
  l.filterMap (fun p => (decodeEntry? p.2).map (fun e => (p.1, e)))

/-- State of the exporter object (`RamsesPrometheusExporter`): the name
caches, the zone-membership index, the persisted cache file (`disk`, with
`diskWrites` counting completed temp-write-and-rename operations), and
every Prometheus metric series, each as a map from its label tuple to its
current value.  Histograms are modelled by their observation streams. -/
structure ExpState where
  zoneNameCache : List (String × CacheEntry)
  deviceNameCache : List (String × CacheEntry)
  zoneDevicesMap : List (String × List (String × List String))
  disk : Option CacheDoc
  diskWrites : Nat
  messagesTotal : List ((String × String × String × String × String × String) × Nat)
  messageTypesCounter : List ((String × String × String) × Nat)
  deviceCommunicationsCounter : List ((String × String × String) × Nat)
  activeDevices : Option Rat
  lastMessageTimestamp : Option Rat
  messageProcessingObs : Nat
  systemInfo : Option (List (String × String))
  messageErrors : List (String × Nat)
  commsFaultTotal : List ((Prim × Prim × Prim × Prim) × Nat)
  commsFaultState : List ((Prim × Prim × Prim) × Rat)
  commsFaultLastTimestamp : List ((Prim × Prim × Prim × Prim) × Rat)
  payloadSizeObs : List Nat
  deviceTemperature : List ((String × String × String) × Rat)
  deviceLastSeen : List ((String × String × String) × Rat)
  deviceSetpoint : List ((String × String × PValue × String) × Rat)
  zoneWindowOpen : List ((String × String × PValue × String) × Rat)
  zoneMode : List ((String × String × PValue × String × String) × Rat)
  heatDemand : List ((String × String × PValue × String) × Rat)
  systemSyncRemaining : List ((String × String × String) × Rat)
  systemSyncTimestamp : List ((String × String × String) × Rat)
  boilerMessagesSent : List ((String × String × String × String) × Nat)
  boilerMessagesReceived : List ((String × String × String × String) × Nat)
  boilerLastSeen : List ((String × String) × Rat)
  boilerLastContacted : List ((String × String) × Rat)
  boilerSetpoint : List ((String × String) × Rat)
  boilerModulationLevel : List ((String × String) × Rat)
  boilerFlameActive : List ((String × String) × Rat)
  boilerChActive : List ((String × String) × Rat)
  boilerDhwActive : List ((String × String) × Rat)
  dhwTemperature : List ((PValue × String × String) × Rat)
  dhwSetpoint : List ((PValue × String × String) × Rat)
  dhwActive : List ((PValue × String × String) × Rat)
  dhwMode : List ((PValue × String × String × String) × Rat)
  messageTypes : List (String × Nat)
  deviceCommunications : List (String × Nat)
  lastMessageTime : Rat
  deriving DecidableEq, Repr

/-- The freshly constructed exporter (empty caches, no series yet);
`t0` is the `time.time()` recorded by `__init__`. -/
def initialState (t0 : Rat) : ExpState where
  zoneNameCache := []
  deviceNameCache := []
  zoneDevicesMap := []
  disk := none
  diskWrites := 0
  messagesTotal := []
  messageTypesCounter := []
  deviceCommunicationsCounter := []
  activeDevices := none
  lastMessageTimestamp := none
  messageProcessingObs := 0
  systemInfo := none
  messageErrors := []
  commsFaultTotal := []
  commsFaultState := []
  commsFaultLastTimestamp := []
  payloadSizeObs := []
  deviceTemperature := []
  deviceLastSeen := []
  deviceSetpoint := []
  zoneWindowOpen := []
  zoneMode := []
  heatDemand := []
  systemSyncRemaining := []
  systemSyncTimestamp := []
  boilerMessagesSent := []
  boilerMessagesReceived := []
  boilerLastSeen := []
  boilerLastContacted := []
  boilerSetpoint := []
  boilerModulationLevel := []
  boilerFlameActive := []
  boilerChActive := []
  boilerDhwActive := []
  dhwTemperature := []
  dhwSetpoint := []
  dhwActive := []
  dhwMode := []
  messageTypes := []
  deviceCommunications := []
  lastMessageTime := t0

/-- Embedding of `_save_cache`: serialize both caches plus the ISO
timestamp, write to a temp file and atomically rename it over the
destination (the completed atomic replacement is one `diskWrites` tick). -/
def saveCache (nowIso : String) (st : ExpState) : ExpState :=
  { st with
    disk := some
      { zones := encodeEntries st.zoneNameCache
        devices := encodeEntries st.deviceNameCache
        lastUpdated := nowIso }
    diskWrites := st.diskWrites + 1 }

/-- Embedding of `_load_cache`: a missing file yields empty caches; an
existing document yields its `zones` and `devices` mappings. -/
def loadCache :
    Option CacheDoc → List (String × CacheEntry) × List (String × CacheEntry)
  | none => ([], [])
  | some d => (decodeEntries d.zones, decodeEntries d.devices)

/-- Embedding of `_update_zone_name_cache`: no-op on empty/sentinel
arguments; insert-and-save for a new zone; overwrite-and-save on a name
change; in-memory `last_seen` refresh (no disk write) otherwise. -/
def updateZoneNameCache (ctx : Ctx) (zoneIdx zoneName : String) (st : ExpState) : ExpState :=
  if zoneIdx = "" ∨ zoneName = "" ∨ zoneName = "unknown" then st
  else
    match alook st.zoneNameCache zoneIdx with
    | none =>
        saveCache ctx.nowIso
          { st with
              zoneNameCache := aset st.zoneNameCache zoneIdx ⟨zoneName, ctx.now, ctx.now⟩ }
    | some e =>
        if e.name ≠ zoneName then
          saveCache ctx.nowIso
            { st with
                zoneNameCache :=
                  aset st.zoneNameCache zoneIdx { e with name := zoneName, lastSeen := ctx.now } }
        else
          { st with
              zoneNameCache := aset st.zoneNameCache zoneIdx { e with lastSeen := ctx.now } }

/-- Embedding of `_update_device_name_cache`: same contract as the zone
variant, on the device cache. -/
def updateDeviceNameCache (ctx : Ctx) (deviceId deviceName : String) (st : ExpState) :
    ExpState :=
  if deviceId = "" ∨ deviceName = "" ∨ deviceName = "unknown" then st
  else
    match alook st.deviceNameCache deviceId with
    | none =>
        saveCache ctx.nowIso
          { st with
              deviceNameCache := aset st.deviceNameCache deviceId ⟨deviceName, ctx.now, ctx.now⟩ }
    | some e =>
        if e.name ≠ deviceName then
          saveCache ctx.nowIso
            { st with
                deviceNameCache :=
                  aset st.deviceNameCache deviceId
                    { e with name := deviceName, lastSeen := ctx.now } }
        else
          { st with
              deviceNameCache := aset st.deviceNameCache deviceId { e with lastSeen := ctx.now } }

/-- Python repr of a scalar, as it appears inside `str(payload)`. -/
def Prim.pyRepr : Prim → String
  | .pStr s => "'" ++ s ++ "'"
  | .pNum q => toString q
  | .pBool b => if b then "True" else "False"
  | .pNull => "None"

/-- Python repr of a payload value, as it appears inside `str(payload)`
(best-effort rendering; only its length is ever observed). -/
def PValue.pyRepr : PValue → String
  | .atom a => a.pyRepr
  | .vList xs => "(" ++ String.intercalate ", " (xs.map Prim.pyRepr) ++ ")"

/-- Model of `str(msg.payload)` for the payload-size histogram. -/
def Payload.pyStr : Payload → String
  | .pDict f =>
      "\x7b" ++ String.intercalate ", "
        (f.map (fun p => "'" ++ p.1 ++ "': " ++ p.2.pyRepr)) ++ "\x7d"
  | .pList xs => "[" ++ String.intercalate ", " (xs.map PValue.pyRepr) ++ "]"

/-- Exceptions escaping an extraction rule uncaught by its `except`
clause: `NameError` from evaluating the undefined `destination_device`
name, `AttributeError` when a non-dict payload reaches `payload.get`. -/
inductive PyErr where
  | nameError
  | attributeError
  deriving DecidableEq, Repr

/-- Error-type label of an escaping exception (`type(e).__name__`). -/
def PyErr.typeName : PyErr → String
  | .nameError => "NameError"
  | .attributeError => "AttributeError"

/-- Handler step: the per-source `device_last_seen` gauge update. -/
def lastSeenUpdate (ctx : Ctx) (msg : Msg) (st : ExpState) : ExpState :=
  let src := srcDevice msg
  if src ≠ "unknown" then
    let dn := getDeviceName ctx.env st.deviceNameCache src
    let zi := getZoneForDevice st.zoneDevicesMap src
    let zn := if zi ≠ "unknown" then getZoneNameStr ctx.env st.zoneNameCache zi else "unknown"
    { st with deviceLastSeen := gset st.deviceLastSeen (src, dn, zn) ctx.now }
  else st

/-- Handler step: the generic counters and in-object tracking dicts
(`messages_total`, `message_types_counter`,
`device_communications_counter`, `message_types`,
`device_communications`). -/
def genericCounters (ctx : Ctx) (msg : Msg) (st : ExpState) : ExpState :=
  let code := msgCode msg
  let verb := msgVerb msg
  let codeName := getCodeName ctx.env msg.code
  let src := srcDevice msg
  let dst := dstDevice msg
  let szi := getZoneForDevice st.zoneDevicesMap src
  let szn := if szi ≠ "unknown" then getZoneNameStr ctx.env st.zoneNameCache szi else "unknown"
  { st with
      messagesTotal := cinc st.messagesTotal (code, verb, code, src, dst, szn)
      messageTypesCounter := cinc st.messageTypesCounter (code, codeName, verb)
      deviceCommunicationsCounter := cinc st.deviceCommunicationsCounter (src, dst, verb)
      messageTypes := cinc st.messageTypes (code ++ "_" ++ verb)
      deviceCommunications := cinc st.deviceCommunications (src ++ "_" ++ dst) }

/-- Handler step: boiler-classified send/receive tracking (messages from
boilers and messages to boilers). -/
def boilerTracking (ctx : Ctx) (msg : Msg) (st : ExpState) : ExpState :=
  let code := msgCode msg
  let codeName := getCodeName ctx.env (some code)
  let src := srcDevice msg
  let dst := dstDevice msg
  let st :=
    if isBoiler src then
      let bn := getDeviceName ctx.env st.deviceNameCache src
      { st with
          boilerMessagesReceived := cinc st.boilerMessagesReceived (src, bn, code, codeName)
          boilerLastSeen := gset st.boilerLastSeen (src, bn) ctx.now }
    else st
  if isBoiler dst then
    let bn := getDeviceName ctx.env st.deviceNameCache dst
    { st with
        boilerMessagesSent := cinc st.boilerMessagesSent (dst, bn, code, codeName)
        boilerLastContacted := gset st.boilerLastContacted (dst, bn) ctx.now }
  else st

/-- Handler step: the whole-stream timestamp updates. -/
def timestampUpdate (ctx : Ctx) (st : ExpState) : ExpState :=
  { st with lastMessageTimestamp := some ctx.now, lastMessageTime := ctx.now }

/-- Payload rule: the payload-size histogram observation. -/
def ruleSize (msg : Msg) (st : ExpState) : ExpState :=
  match msg.payload with
  | some p => { st with payloadSizeObs := st.payloadSizeObs ++ [p.pyStr.length] }
  | none => st

/-- Payload rule (codes 0004 / `zone_name`): learn zone names from the
payload and write them back to the cache.  Payload name fields are
strings in every event the protocol produces; a non-string value could
not match the cache's string keys and is modelled as a no-op. -/
def ruleZoneName (ctx : Ctx) (msg : Msg) (st : ExpState) : ExpState :=
  match msg.payload with
  | some (.pDict f) =>
    if msgCode msg = "0004" ∨ msgCode msg = "zone_name" then
      match alook f "zone_idx", alook f "name" with
      | some zi, some nm =>
        if zi.truthy && nm.truthy then
          match zi, nm with
          | .atom (.pStr zs), .atom (.pStr ns) => updateZoneNameCache ctx zs ns st
          | _, _ => st
        else st
      | _, _ => st
    else st
  | _ => st

/-- Payload rule (codes 000C / `zone_devices`): record the full device
list per (zone, role); an empty roster is recorded as the empty list. -/
def ruleZoneDevices (_ctx : Ctx) (msg : Msg) (st : ExpState) : ExpState :=
  match msg.payload with
  | some (.pDict f) =>
    if msgCode msg = "000C" ∨ msgCode msg = "zone_devices" then
      match alook f "zone_idx", alook f "device_role" with
      | some zi, some role =>
        if zi.truthy && role.truthy then
          match zi, role with
          | .atom (.pStr zs), .atom (.pStr rs) =>
            let devices :=
              match alook f "devices" with
              | some (.vList xs) =>
                  xs.filterMap (fun a => match a with | .pStr s => some s | _ => none)
              | _ => []
            let roles := (alook st.zoneDevicesMap zs).getD []
            { st with zoneDevicesMap := aset st.zoneDevicesMap zs (aset roles rs devices) }
          | _, _ => st
        else st
      | _, _ => st
    else st
  | _ => st

/-- Payload rule: device temperature gauge. -/
def ruleTemperature (ctx : Ctx) (msg : Msg) (st : ExpState) : ExpState :=
  match msg.payload with
  | some (.pDict f) =>
    match alook f "temperature" with
    | some v =>
      match toFloat? v with
      | some temp =>
        let src := srcDevice msg
        let dn := getDeviceName ctx.env st.deviceNameCache src
        let zi := getZoneForDevice st.zoneDevicesMap src
        let zn := if zi ≠ "unknown" then getZoneNameStr ctx.env st.zoneNameCache zi else "unknown"
        { st with deviceTemperature := gset st.deviceTemperature (src, dn, zn) temp }
      | none => st
    | none => st
  | _ => st

/-- Payload rule: device/zone setpoint gauge, zone index defaulting to the
system-wide reserved index when absent. -/
def ruleSetpoint (ctx : Ctx) (msg : Msg) (st : ExpState) : ExpState :=
  match msg.payload with
  | some (.pDict f) =>
    match alook f "setpoint" with
    | some v =>
      match toFloat? v with
      | some sp =>
        let zidx := (alook f "zone_idx").getD (.atom (.pStr "00"))
        let src := srcDevice msg
        let dn := getDeviceName ctx.env st.deviceNameCache src
        let zn := getZoneNameP ctx.env st.zoneNameCache zidx
        { st with deviceSetpoint := gset st.deviceSetpoint (src, dn, zidx, zn) sp }
      | none => st
    | none => st
  | _ => st

/-- Payload rule: zone window-open 0/1 gauge. -/
def ruleWindow (ctx : Ctx) (msg : Msg) (st : ExpState) : ExpState :=
  match msg.payload with
  | some (.pDict f) =>
    match alook f "window_open" with
    | some v =>
      let zidx := (alook f "zone_idx").getD (.atom (.pStr "00"))
      let src := srcDevice msg
      let dn := getDeviceName ctx.env st.deviceNameCache src
      let zn := getZoneNameP ctx.env st.zoneNameCache zidx
      { st with
          zoneWindowOpen := gset st.zoneWindowOpen (src, dn, zidx, zn) (if v.truthy then 1 else 0) }
    | none => st
  | _ => st

/-- The fixed enumerated zone-mode list of the clear-then-set pattern. -/
def possibleModes : List String :=
  ["follow_schedule", "temporary_override", "permanent_override",
   "advanced_override", "countdown", "off"]

/-- Payload rule: zone-mode info gauge, clear-then-set over the fixed
mode list for the event's label combination. -/
def ruleMode (ctx : Ctx) (msg : Msg) (st : ExpState) : ExpState :=
  match msg.payload with
  | some (.pDict f) =>
    match alook f "mode" with
    | some v =>
      let mode := v.pyStr
      let zidx := (alook f "zone_idx").getD (.atom (.pStr "00"))
      let src := srcDevice msg
      let dn := getDeviceName ctx.env st.deviceNameCache src
      let zn := getZoneNameP ctx.env st.zoneNameCache zidx
      let cleared := possibleModes.foldl (fun g m => gset g (src, dn, zidx, zn, m) 0) st.zoneMode
      { st with zoneMode := gset cleared (src, dn, zidx, zn, mode) 1 }
    | none => st
  | _ => st

/-- Payload rule: heat-demand gauge, zone key preferring `zone_idx`, then
`domain_id`, then the system-wide reserved index. -/
def ruleHeatDemand (ctx : Ctx) (msg : Msg) (st : ExpState) : ExpState :=
  match msg.payload with
  | some (.pDict f) =>
    match alook f "heat_demand" with
    | some v =>
      match toFloat? v with
      | some hd =>
        let zidx := (alook f "zone_idx").getD ((alook f "domain_id").getD (.atom (.pStr "00")))
        let src := srcDevice msg
        let dn := getDeviceName ctx.env st.deviceNameCache src
        let zn := getZoneNameP ctx.env st.zoneNameCache zidx
        { st with heatDemand := gset st.heatDemand (src, dn, zidx, zn) hd }
      | none => st
    | none => st
  | _ => st

/-- Payload rule: system-sync remaining-seconds and last-sync gauges. -/
def ruleSync (ctx : Ctx) (msg : Msg) (st : ExpState) : ExpState :=
  match msg.payload with
  | some (.pDict f) =>
    match alook f "remaining_seconds" with
    | some v =>
      match toFloat? v with
      | some rem =>
        let src := srcDevice msg
        let dn := getDeviceName ctx.env st.deviceNameCache src
        let zi := getZoneForDevice st.zoneDevicesMap src
        let zn := if zi ≠ "unknown" then getZoneNameStr ctx.env st.zoneNameCache zi else "unknown"
        { st with
            systemSyncRemaining := gset st.systemSyncRemaining (src, dn, zn) rem
            systemSyncTimestamp := gset st.systemSyncTimestamp (src, dn, zn) ctx.now }
      | none => st
    | none => st
  | _ => st

/-- Payload rule (code 0418): comms-fault log entries update the fault
counter, 0/1 state gauge and timestamp gauge, keyed by the device named
in the log entry. -/
def ruleFault (ctx : Ctx) (msg : Msg) (st : ExpState) : ExpState :=
  match msg.payload with
  | some (.pDict f) =>
    match alook f "log_entry" with
    | some (.vList xs) =>
      if xs.length ≥ 6 then
        let eventType := xs.getD 1 .pNull
        let faultType := xs.getD 2 .pNull
        let deviceType := xs.getD 3 .pNull
        let zoneIdx := xs.getD 4 .pNull
        let deviceId := xs.getD 5 .pNull
        if faultType = .pStr "comms_fault" then
          let faultState : Rat := if eventType = .pStr "restore" then 0 else 1
          { st with
              commsFaultTotal := cinc st.commsFaultTotal (deviceId, deviceType, zoneIdx, eventType)
              commsFaultState := gset st.commsFaultState (deviceId, deviceType, zoneIdx) faultState
              commsFaultLastTimestamp :=
                gset st.commsFaultLastTimestamp (deviceId, deviceType, zoneIdx, eventType) ctx.now }
        else st
      else st
    | _ => st
  | _ => st

/-- Payload rule (code 22D9): boiler setpoint gauge. -/
def ruleBoilerSetpoint (ctx : Ctx) (msg : Msg) (st : ExpState) : ExpState :=
  match msg.payload with
  | some (.pDict f) =>
    if msgCode msg = "22D9" then
      match alook f "setpoint" with
      | some v =>
        match toFloat? v with
        | some sp =>
          let src := srcDevice msg
          let bn := getDeviceName ctx.env st.deviceNameCache src
          { st with boilerSetpoint := gset st.boilerSetpoint (src, bn) sp }
        | none => st
      | none => st
    else st
  | _ => st

/-- Flame/CH/DHW tail of the boiler-status rule, applied after the
modulation update succeeded (or was skipped for an absent/None field). -/
def boilerStatusRest (f : List (String × PValue)) (src bn : String) (st : ExpState) : ExpState :=
  let st2 :=
    match alook f "flame_on" with
    | some v =>
      { st with
          boilerFlameActive := gset st.boilerFlameActive (src, bn) (if v.truthy then 1 else 0) }
    | none => st
  let st3 :=
    match alook f "ch_active" with
    | some v =>
      { st2 with
          boilerChActive := gset st2.boilerChActive (src, bn) (if v.truthy then 1 else 0) }
    | none => st2
  match alook f "dhw_active" with
  | some v =>
    { st3 with
        boilerDhwActive := gset st3.boilerDhwActive (src, bn) (if v.truthy then 1 else 0) }
  | none => st3

/-- Payload rule (codes 3EF0/3EF1): boiler modulation, flame, CH and DHW
status gauges; a conversion failure on the modulation level raises inside
the rule's single `try` block, so the remaining status updates are
skipped (the exception is caught by the rule's `except`). -/
def ruleBoilerStatus (ctx : Ctx) (msg : Msg) (st : ExpState) : ExpState :=
  match msg.payload with
  | some (.pDict f) =>
    if msgCode msg = "3EF0" ∨ msgCode msg = "3EF1" then
      let src := srcDevice msg
      let bn := getDeviceName ctx.env st.deviceNameCache src
      match alook f "modulation_level" with
      | some v =>
        if v ≠ .atom .pNull then
          match toFloat? v with
          | some m =>
              boilerStatusRest f src bn
                { st with boilerModulationLevel := gset st.boilerModulationLevel (src, bn) m }
          | none => st
        else boilerStatusRest f src bn st
      | none => boilerStatusRest f src bn st
    else st
  | _ => st

/-- The DHW kind names gating the DHW rule. -/
def dhwCodeNames : List String := ["dhw_temp", "dhw_params", "dhw_mode"]

/-- Body of the DHW rule once the controller id has been resolved. -/
def dhwBody (_ctx : Ctx) (msg : Msg) (codeName cid cn : String) (st : ExpState) :
    ExpState × Option PyErr :=
  if codeName = "dhw_temp" then
    match msg.payload with
    | some (.pDict f) =>
      if (Payload.pDict f).truthy then
        match alook f "temperature" with
        | some v =>
          if v ≠ .atom .pNull then
            match toFloat? v with
            | some temp =>
              let dhwIdx := (alook f "dhw_idx").getD (.atom (.pStr "00"))
              ({ st with dhwTemperature := gset st.dhwTemperature (dhwIdx, cid, cn) temp }, none)
            | none => (st, none)
          else (st, none)
        | none => (st, none)
      else (st, none)
    | _ => (st, none)
  else if codeName = "dhw_params" then
    match msg.payload with
    | some (.pDict f) =>
      if (Payload.pDict f).truthy then
        match alook f "setpoint" with
        | some v =>
          if v ≠ .atom .pNull then
            match toFloat? v with
            | some sp =>
              let dhwIdx := (alook f "dhw_idx").getD (.atom (.pStr "00"))
              ({ st with dhwSetpoint := gset st.dhwSetpoint (dhwIdx, cid, cn) sp }, none)
            | none => (st, none)
          else (st, none)
        | none => (st, none)
      else (st, none)
    | _ => (st, none)
  else
    match msg.payload with
    | some (.pDict f) =>
      if (Payload.pDict f).truthy then
        let dhwIdx := (alook f "dhw_idx").getD (.atom (.pStr "00"))
        let st1 :=
          match alook f "active" with
          | some v =>
            { st with dhwActive := gset st.dhwActive (dhwIdx, cid, cn) (if v.truthy then 1 else 0) }
          | none => st
        match alook f "mode" with
        | some v => ({ st1 with dhwMode := gset st1.dhwMode (dhwIdx, cid, cn, v.pyStr) 1 }, none)
        | none => (st1, none)
      else (st, none)
    | some (.pList xs) =>
      if (Payload.pList xs).truthy then (st, some .attributeError) else (st, none)
    | none => (st, none)

/-- The DHW rule (lines 1094-1160 of the source): resolve the controller
id, then update DHW temperature/setpoint/active/mode gauges.  When the
source id does not carry the controller prefix, the source evaluates
`destination_device`, a name that is never defined (the variable holding
the destination id is `dest_device`); this raises `NameError`, which the
surrounding `except (ValueError, TypeError, KeyError)` does not catch. -/
def ruleDhw (ctx : Ctx) (msg : Msg) (st : ExpState) : ExpState × Option PyErr :=
  let code := msgCode msg
  let codeName := getCodeName ctx.env (some code)
  if codeName ∈ dhwCodeNames then
    let src := srcDevice msg
    if pyStartsWith src "01:" then
      dhwBody ctx msg codeName src (getDeviceName ctx.env st.deviceNameCache src) st
    else (st, some .nameError)
  else (st, none)

/-- The trailing aggregate updates: active-device count and system info. -/
def finalPhase (ctx : Ctx) (msg : Msg) (st : ExpState) : ExpState :=
  let st :=
    match ctx.env.gateway with
    | some gw => { st with activeDevices := some (gw.devices.length : Rat) }
    | none => st
  { st with
      systemInfo := some
        [("gateway_version",
            match ctx.env.gateway with
            | some gw => gw.version.getD "unknown"
            | none => "unknown"),
         ("total_devices",
            toString (match ctx.env.gateway with
            | some gw => gw.devices.length
            | none => 0)),
         ("last_message_code", msgCode msg),
         ("last_message_verb", msgVerb msg)] }

/-- The structured-payload extraction rule table, in source order,
guarded by payload presence and truthiness. -/
def payloadPhase (ctx : Ctx) (msg : Msg) (st : ExpState) : ExpState :=
  match msg.payload with
  | some p =>
    if p.truthy then
      ruleBoilerStatus ctx msg (ruleBoilerSetpoint ctx msg (ruleFault ctx msg (ruleSync ctx msg
        (ruleHeatDemand ctx msg (ruleMode ctx msg (ruleWindow ctx msg (ruleSetpoint ctx msg
          (ruleTemperature ctx msg (ruleZoneDevices ctx msg (ruleZoneName ctx msg
            (ruleSize msg st)))))))))))
    else st
  | none => st

/-- Embedding of `_capture_message_metrics`: the generic phase, the
payload rule table, the DHW rule (whose uncaught exceptions abort the
rest), and the trailing aggregate updates. -/
def captureMessageMetrics (ctx : Ctx) (msg : Msg) (st : ExpState) : ExpState × Option PyErr :=
  match ruleDhw ctx msg
      (payloadPhase ctx msg
        (timestampUpdate ctx
          (boilerTracking ctx msg
            (genericCounters ctx msg
              (lastSeenUpdate ctx msg st))))) with
  | (st1, some e) => (st1, some e)
  | (st1, none) => (finalPhase ctx msg st1, none)

/-- Embedding of the handler wrapper `message_logger_and_metrics`: an
exception escaping the capture is caught at the top level and counted in
the error counter (the duration observation is skipped); otherwise the
processing-duration histogram records one observation. -/
def dispatchMessage (ctx : Ctx) (msg : Msg) (st : ExpState) : ExpState :=
  match captureMessageMetrics ctx msg st with
  | (st1, none) => { st1 with messageProcessingObs := st1.messageProcessingObs + 1 }
  | (st1, some e) => { st1 with messageErrors := cinc st1.messageErrors e.typeName }

/-! ## Sample environments for concrete witnesses -/

/-- An environment with no gateway and an empty code-name table. -/
def emptyEnv : Env := { codeNames := [], gateway := none }

/-- An environment whose code-name table knows the DHW and zone codes. -/
def sampleEnv : Env :=
  { codeNames :=
      [("1260", "dhw_temp"), ("10A0", "dhw_params"), ("1F41", "dhw_mode"),
       ("0004", "zone_name"), ("000C", "zone_devices"), ("2349", "zone_mode"),
       ("3150", "heat_demand")]
    gateway := none }

/-- A first sample invocation context. -/
def sampleCtx : Ctx := { env := sampleEnv, now := 100, nowIso := "2026-01-01T00:00:00" }

/-- A second sample invocation context (a later wall-clock instant). -/
def sampleCtx2 : Ctx := { env := sampleEnv, now := 200, nowIso := "2026-01-01T00:01:40" }

/-- Sample zone-mode event (mode `follow_schedule`, zone 0A). -/
def mMode1 : Msg :=
  { code := some "2349", verb := some "I", src := some "04:111111", dst := some "01:222222",
    payload := some (.pDict
      [("mode", .atom (.pStr "follow_schedule")), ("zone_idx", .atom (.pStr "0A"))]) }

/-- Sample zone-mode event (mode `off`, zone 0A). -/
def mMode2 : Msg :=
  { code := some "2349", verb := some "I", src := some "04:111111", dst := some "01:222222",
    payload := some (.pDict
      [("mode", .atom (.pStr "off")), ("zone_idx", .atom (.pStr "0A"))]) }

/-- Sample zone-mode event with a mode outside the fixed list. -/
def mModeOut : Msg :=
  { code := some "2349", verb := some "I", src := some "04:111111", dst := some "01:222222",
    payload := some (.pDict
      [("mode", .atom (.pStr "boost")), ("zone_idx", .atom (.pStr "0A"))]) }

/-- Sample DHW event whose destination, not source, carries the
controller prefix. -/
def mDhwBug : Msg :=
  { code := some "1260", verb := some "I", src := some "07:045960", dst := some "01:123456",
    payload := some (.pDict
      [("temperature", .atom (.pNum 52)), ("dhw_idx", .atom (.pStr "00"))]) }

/-- Sample zone-name event (code 0004). -/
def mZoneName04 : Msg :=
  { code := some "0004", verb := some "RP", src := some "01:222222", dst := some "18:000730",
    payload := some (.pDict
      [("zone_idx", .atom (.pStr "01")), ("name", .atom (.pStr "Office"))]) }

/-- Sample event with a non-numeric temperature payload. -/
def mBadTemp : Msg :=
  { code := some "30C9", verb := some "I", src := some "04:111111", dst := none,
    payload := some (.pDict [("temperature", .atom (.pStr "not_a_number"))]) }

/-- Sample event between two boiler-class devices. -/
def mBoilerMsg : Msg :=
  { code := some "3EF0", verb := some "I", src := some "13:111111", dst := some "10:222222",
    payload := some (.pDict [("modulation_level", .atom (.pNum 1))]) }

/-- Sample setpoint event without a zone index. -/
def mSetpointMsg : Msg :=
  { code := some "2309", verb := some "I", src := some "04:111111", dst := some "01:222222",
    payload := some (.pDict [("setpoint", .atom (.pNum 21))]) }

/-- Sample heat-demand event carrying only a domain id. -/
def mHeatMsg : Msg :=
  { code := some "3150", verb := some "I", src := some "04:111111", dst := some "01:222222",
    payload := some (.pDict
      [("heat_demand", .atom (.pNum (1 / 2))), ("domain_id", .atom (.pStr "FC"))]) }

/-! ## Association-list lemmas -/

@[simp] theorem alook_nil {κ α : Type} [DecidableEq κ] (k : κ) :
    alook ([] : List (κ × α)) k = none := rfl

theorem alook_aset_self {κ α : Type} [DecidableEq κ] (l : List (κ × α)) (k : κ) (v : α) :
    alook (aset l k v) k = some v := by
  induction l with
  | nil => simp [aset, alook]
  | cons p rest ih =>
    by_cases h : p.1 = k
    · simp [aset, h, alook]
    · simp [aset, h, alook, ih]

theorem alook_aset_ne {κ α : Type} [DecidableEq κ] (l : List (κ × α)) (k k' : κ) (v : α)
    (h : k' ≠ k) : alook (aset l k v) k' = alook l k' := by
  induction l with
  | nil => simp [aset, alook, Ne.symm h]
  | cons p rest ih =>
    by_cases hp : p.1 = k
    · by_cases hp' : p.1 = k'
      · exact absurd (hp'.symm.trans hp) h
      · simp [aset, hp, alook, hp', Ne.symm h]
    · by_cases hp' : p.1 = k'
      · simp [aset, hp, alook, hp', h]
      · simp [aset, hp, alook, hp', ih]

theorem alook_mem {κ α : Type} [DecidableEq κ] {l : List (κ × α)} {k : κ} {v : α}
    (h : alook l k = some v) : (k, v) ∈ l := by
  induction l with
  | nil => simp [alook] at h
  | cons p rest ih =>
    obtain ⟨p1, p2⟩ := p
    by_cases hp : p1 = k
    · simp [alook, hp] at h
      simp [hp, h]
    · simp [alook, hp] at h
      exact List.mem_cons_of_mem _ (ih h)

/-! ## Footprint lemmas

Each handler component only writes its own metric fields; everything
else of the state passes through unchanged.  These are stated as
existential record-update equations and drive all frame reasoning. -/

theorem lastSeenUpdate_only (ctx : Ctx) (msg : Msg) (st : ExpState) :
    ∃ v, lastSeenUpdate ctx msg st = { st with deviceLastSeen := v } := by
  simp only [lastSeenUpdate]
  repeat' split
  all_goals exact ⟨_, rfl⟩

theorem genericCounters_only (ctx : Ctx) (msg : Msg) (st : ExpState) :
    ∃ a b c d e, genericCounters ctx msg st
      = { st with
            messagesTotal := a, messageTypesCounter := b,
            deviceCommunicationsCounter := c, messageTypes := d,
            deviceCommunications := e } := by
  unfold genericCounters
  exact ⟨_, _, _, _, _, rfl⟩

theorem boilerTracking_only (ctx : Ctx) (msg : Msg) (st : ExpState) :
    ∃ a b c d, boilerTracking ctx msg st
      = { st with
            boilerMessagesSent := a, boilerMessagesReceived := b,
            boilerLastSeen := c, boilerLastContacted := d } := by
  unfold boilerTracking
  dsimp only
  repeat' split
  all_goals exact ⟨_, _, _, _, rfl⟩

theorem timestampUpdate_only (ctx : Ctx) (st : ExpState) :
    ∃ a b, timestampUpdate ctx st = { st with lastMessageTimestamp := a, lastMessageTime := b } := by
  unfold timestampUpdate
  exact ⟨_, _, rfl⟩

theorem ruleSize_only (msg : Msg) (st : ExpState) :
    ∃ v, ruleSize msg st = { st with payloadSizeObs := v } := by
  simp only [ruleSize]
  repeat' split
  all_goals exact ⟨_, rfl⟩

theorem updateZoneNameCache_only (ctx : Ctx) (zi zn : String) (st : ExpState) :
    ∃ a b c, updateZoneNameCache ctx zi zn st
      = { st with zoneNameCache := a, disk := b, diskWrites := c } := by
  simp only [updateZoneNameCache, saveCache]
  repeat' split
  all_goals exact ⟨_, _, _, rfl⟩

theorem ruleZoneName_only (ctx : Ctx) (msg : Msg) (st : ExpState) :
    ∃ a b c, ruleZoneName ctx msg st
      = { st with zoneNameCache := a, disk := b, diskWrites := c } := by
  simp only [ruleZoneName]
  repeat' split
  all_goals first
    | exact updateZoneNameCache_only _ _ _ _
    | exact ⟨_, _, _, rfl⟩

theorem ruleZoneDevices_only (ctx : Ctx) (msg : Msg) (st : ExpState) :
    ∃ v, ruleZoneDevices ctx msg st = { st with zoneDevicesMap := v } := by
  simp only [ruleZoneDevices]
  repeat' split
  all_goals exact ⟨_, rfl⟩

theorem ruleTemperature_only (ctx : Ctx) (msg : Msg) (st : ExpState) :
    ∃ v, ruleTemperature ctx msg st = { st with deviceTemperature := v } := by
  simp only [ruleTemperature]
  repeat' split
  all_goals exact ⟨_, rfl⟩

theorem ruleSetpoint_only (ctx : Ctx) (msg : Msg) (st : ExpState) :
    ∃ v, ruleSetpoint ctx msg st = { st with deviceSetpoint := v } := by
  simp only [ruleSetpoint]
  repeat' split
  all_goals exact ⟨_, rfl⟩

theorem ruleWindow_only (ctx : Ctx) (msg : Msg) (st : ExpState) :
    ∃ v, ruleWindow ctx msg st = { st with zoneWindowOpen := v } := by
  simp only [ruleWindow]
  repeat' split
  all_goals exact ⟨_, rfl⟩

theorem ruleMode_only (ctx : Ctx) (msg : Msg) (st : ExpState) :
    ∃ v, ruleMode ctx msg st = { st with zoneMode := v } := by
  simp only [ruleMode]
  repeat' split
  all_goals exact ⟨_, rfl⟩

theorem ruleHeatDemand_only (ctx : Ctx) (msg : Msg) (st : ExpState) :
    ∃ v, ruleHeatDemand ctx msg st = { st with heatDemand := v } := by
  simp only [ruleHeatDemand]
  repeat' split
  all_goals exact ⟨_, rfl⟩

theorem ruleSync_only (ctx : Ctx) (msg : Msg) (st : ExpState) :
    ∃ a b, ruleSync ctx msg st
      = { st with systemSyncRemaining := a, systemSyncTimestamp := b } := by
  simp only [ruleSync]
  repeat' split
  all_goals exact ⟨_, _, rfl⟩

theorem ruleFault_only (ctx : Ctx) (msg : Msg) (st : ExpState) :
    ∃ a b c, ruleFault ctx msg st
      = { st with commsFaultTotal := a, commsFaultState := b, commsFaultLastTimestamp := c } := by
  simp only [ruleFault]
  repeat' split
  all_goals exact ⟨_, _, _, rfl⟩

theorem ruleBoilerSetpoint_only (ctx : Ctx) (msg : Msg) (st : ExpState) :
    ∃ v, ruleBoilerSetpoint ctx msg st = { st with boilerSetpoint := v } := by
  simp only [ruleBoilerSetpoint]
  repeat' split
  all_goals exact ⟨_, rfl⟩

theorem boilerStatusRest_only (f : List (String × PValue)) (src bn : String) (st : ExpState) :
    ∃ b c d, boilerStatusRest f src bn st
      = { st with boilerFlameActive := b, boilerChActive := c, boilerDhwActive := d } := by
  unfold boilerStatusRest
  dsimp only
  repeat' split
  all_goals exact ⟨_, _, _, rfl⟩

/-- Leaf form of `ruleBoilerStatus` after a successful modulation update. -/
theorem boilerStatusRest_after_mod (f : List (String × PValue)) (src bn : String)
    (st : ExpState) (a : List ((String × String) × Rat)) :
    ∃ x b c d, boilerStatusRest f src bn { st with boilerModulationLevel := a }
      = { st with
            boilerModulationLevel := x, boilerFlameActive := b,
            boilerChActive := c, boilerDhwActive := d } := by
  obtain ⟨b, c, d, h⟩ := boilerStatusRest_only f src bn { st with boilerModulationLevel := a }
  exact ⟨a, b, c, d, by rw [h]⟩

theorem ruleBoilerStatus_only (ctx : Ctx) (msg : Msg) (st : ExpState) :
    ∃ a b c d, ruleBoilerStatus ctx msg st
      = { st with
            boilerModulationLevel := a, boilerFlameActive := b,
            boilerChActive := c, boilerDhwActive := d } := by
  unfold ruleBoilerStatus
  dsimp only
  repeat' split
  all_goals first
    | exact ⟨_, _, _, _, rfl⟩
    | exact boilerStatusRest_after_mod _ _ _ _ _

theorem dhwBody_only (ctx : Ctx) (msg : Msg) (codeName cid cn : String) (st : ExpState) :
    ∃ a b c d err, dhwBody ctx msg codeName cid cn st
      = ({ st with dhwTemperature := a, dhwSetpoint := b, dhwActive := c, dhwMode := d }, err) := by
  simp only [dhwBody]
  repeat' split
  all_goals exact ⟨_, _, _, _, _, rfl⟩

theorem ruleDhw_only (ctx : Ctx) (msg : Msg) (st : ExpState) :
    ∃ a b c d err, ruleDhw ctx msg st
      = ({ st with dhwTemperature := a, dhwSetpoint := b, dhwActive := c, dhwMode := d }, err) := by
  simp only [ruleDhw]
  repeat' split
  all_goals first
    | exact dhwBody_only _ _ _ _ _ _
    | exact ⟨_, _, _, _, _, rfl⟩

theorem finalPhase_only (ctx : Ctx) (msg : Msg) (st : ExpState) :
    ∃ a b, finalPhase ctx msg st = { st with activeDevices := a, systemInfo := b } := by
  simp only [finalPhase]
  repeat' split
  all_goals exact ⟨_, _, rfl⟩

/-! ## Field-preservation matrix

Derived from the footprint lemmas: each component leaves every metric
field it does not write untouched.  Marked `@[simp]` so that frame
reasoning across the handler pipeline is automatic. -/

@[simp] theorem lastSeenUpdate_pres_caches (ctx : Ctx) (msg : Msg) (st : ExpState) :
    (lastSeenUpdate ctx msg st).deviceNameCache = st.deviceNameCache ∧
    (lastSeenUpdate ctx msg st).zoneNameCache = st.zoneNameCache ∧
    (lastSeenUpdate ctx msg st).zoneDevicesMap = st.zoneDevicesMap := by
  obtain ⟨v, h⟩ := lastSeenUpdate_only ctx msg st
  rw [h]; exact ⟨rfl, rfl, rfl⟩

@[simp] theorem lastSeenUpdate_pres_zoneModeF (ctx : Ctx) (msg : Msg) (st : ExpState) :
    (lastSeenUpdate ctx msg st).zoneMode = st.zoneMode := by
  obtain ⟨v, h⟩ := lastSeenUpdate_only ctx msg st
  rw [h]

@[simp] theorem lastSeenUpdate_pres_deviceTempF (ctx : Ctx) (msg : Msg) (st : ExpState) :
    (lastSeenUpdate ctx msg st).deviceTemperature = st.deviceTemperature := by
  obtain ⟨v, h⟩ := lastSeenUpdate_only ctx msg st
  rw [h]

@[simp] theorem lastSeenUpdate_pres_sysDhwF (ctx : Ctx) (msg : Msg) (st : ExpState) :
    (lastSeenUpdate ctx msg st).systemInfo = st.systemInfo ∧
    (lastSeenUpdate ctx msg st).dhwTemperature = st.dhwTemperature ∧
    (lastSeenUpdate ctx msg st).dhwSetpoint = st.dhwSetpoint ∧
    (lastSeenUpdate ctx msg st).dhwActive = st.dhwActive ∧
    (lastSeenUpdate ctx msg st).dhwMode = st.dhwMode := by
  obtain ⟨v, h⟩ := lastSeenUpdate_only ctx msg st
  rw [h]; exact ⟨rfl, rfl, rfl, rfl, rfl⟩

@[simp] theorem lastSeenUpdate_pres_countersF (ctx : Ctx) (msg : Msg) (st : ExpState) :
    (lastSeenUpdate ctx msg st).messagesTotal = st.messagesTotal ∧
    (lastSeenUpdate ctx msg st).messageTypesCounter = st.messageTypesCounter ∧
    (lastSeenUpdate ctx msg st).deviceCommunicationsCounter = st.deviceCommunicationsCounter := by
  obtain ⟨v, h⟩ := lastSeenUpdate_only ctx msg st
  rw [h]; exact ⟨rfl, rfl, rfl⟩

@[simp] theorem lastSeenUpdate_pres_boilerCtrF (ctx : Ctx) (msg : Msg) (st : ExpState) :
    (lastSeenUpdate ctx msg st).boilerMessagesSent = st.boilerMessagesSent ∧
    (lastSeenUpdate ctx msg st).boilerMessagesReceived = st.boilerMessagesReceived := by
  obtain ⟨v, h⟩ := lastSeenUpdate_only ctx msg st
  rw [h]; exact ⟨rfl, rfl⟩

@[simp] theorem genericCounters_pres_caches (ctx : Ctx) (msg : Msg) (st : ExpState) :
    (genericCounters ctx msg st).deviceNameCache = st.deviceNameCache ∧
    (genericCounters ctx msg st).zoneNameCache = st.zoneNameCache ∧
    (genericCounters ctx msg st).zoneDevicesMap = st.zoneDevicesMap := by
  obtain ⟨a, b, c, d, e, h⟩ := genericCounters_only ctx msg st
  rw [h]; exact ⟨rfl, rfl, rfl⟩

@[simp] theorem genericCounters_pres_zoneModeF (ctx : Ctx) (msg : Msg) (st : ExpState) :
    (genericCounters ctx msg st).zoneMode = st.zoneMode := by
  obtain ⟨a, b, c, d, e, h⟩ := genericCounters_only ctx msg st
  rw [h]

@[simp] theorem genericCounters_pres_deviceTempF (ctx : Ctx) (msg : Msg) (st : ExpState) :
    (genericCounters ctx msg st).deviceTemperature = st.deviceTemperature := by
  obtain ⟨a, b, c, d, e, h⟩ := genericCounters_only ctx msg st
  rw [h]

@[simp] theorem genericCounters_pres_sysDhwF (ctx : Ctx) (msg : Msg) (st : ExpState) :
    (genericCounters ctx msg st).systemInfo = st.systemInfo ∧
    (genericCounters ctx msg st).dhwTemperature = st.dhwTemperature ∧
    (genericCounters ctx msg st).dhwSetpoint = st.dhwSetpoint ∧
    (genericCounters ctx msg st).dhwActive = st.dhwActive ∧
    (genericCounters ctx msg st).dhwMode = st.dhwMode := by
  obtain ⟨a, b, c, d, e, h⟩ := genericCounters_only ctx msg st
  rw [h]; exact ⟨rfl, rfl, rfl, rfl, rfl⟩

@[simp] theorem genericCounters_pres_boilerCtrF (ctx : Ctx) (msg : Msg) (st : ExpState) :
    (genericCounters ctx msg st).boilerMessagesSent = st.boilerMessagesSent ∧
    (genericCounters ctx msg st).boilerMessagesReceived = st.boilerMessagesReceived := by
  obtain ⟨a, b, c, d, e, h⟩ := genericCounters_only ctx msg st
  rw [h]; exact ⟨rfl, rfl⟩

@[simp] theorem boilerTracking_pres_caches (ctx : Ctx) (msg : Msg) (st : ExpState) :
    (boilerTracking ctx msg st).deviceNameCache = st.deviceNameCache ∧
    (boilerTracking ctx msg st).zoneNameCache = st.zoneNameCache ∧
    (boilerTracking ctx msg st).zoneDevicesMap = st.zoneDevicesMap := by
  obtain ⟨a, b, c, d, h⟩ := boilerTracking_only ctx msg st
  rw [h]; exact ⟨rfl, rfl, rfl⟩

@[simp] theorem boilerTracking_pres_zoneModeF (ctx : Ctx) (msg : Msg) (st : ExpState) :
    (boilerTracking ctx msg st).zoneMode = st.zoneMode := by
  obtain ⟨a, b, c, d, h⟩ := boilerTracking_only ctx msg st
  rw [h]

@[simp] theorem boilerTracking_pres_deviceTempF (ctx : Ctx) (msg : Msg) (st : ExpState) :
    (boilerTracking ctx msg st).deviceTemperature = st.deviceTemperature := by
  obtain ⟨a, b, c, d, h⟩ := boilerTracking_only ctx msg st
  rw [h]

@[simp] theorem boilerTracking_pres_sysDhwF (ctx : Ctx) (msg : Msg) (st : ExpState) :
    (boilerTracking ctx msg st).systemInfo = st.systemInfo ∧
    (boilerTracking ctx msg st).dhwTemperature = st.dhwTemperature ∧
    (boilerTracking ctx msg st).dhwSetpoint = st.dhwSetpoint ∧
    (boilerTracking ctx msg st).dhwActive = st.dhwActive ∧
    (boilerTracking ctx msg st).dhwMode = st.dhwMode := by
  obtain ⟨a, b, c, d, h⟩ := boilerTracking_only ctx msg st
  rw [h]; exact ⟨rfl, rfl, rfl, rfl, rfl⟩

@[simp] theorem boilerTracking_pres_countersF (ctx : Ctx) (msg : Msg) (st : ExpState) :
    (boilerTracking ctx msg st).messagesTotal = st.messagesTotal ∧
    (boilerTracking ctx msg st).messageTypesCounter = st.messageTypesCounter ∧
    (boilerTracking ctx msg st).deviceCommunicationsCounter = st.deviceCommunicationsCounter := by
  obtain ⟨a, b, c, d, h⟩ := boilerTracking_only ctx msg st
  rw [h]; exact ⟨rfl, rfl, rfl⟩

@[simp] theorem timestampUpdate_pres_caches (ctx : Ctx) (st : ExpState) :
    (timestampUpdate ctx st).deviceNameCache = st.deviceNameCache ∧
    (timestampUpdate ctx st).zoneNameCache = st.zoneNameCache ∧
    (timestampUpdate ctx st).zoneDevicesMap = st.zoneDevicesMap := by
  obtain ⟨a, b, h⟩ := timestampUpdate_only ctx st
  rw [h]; exact ⟨rfl, rfl, rfl⟩

@[simp] theorem timestampUpdate_pres_zoneModeF (ctx : Ctx) (st : ExpState) :
    (timestampUpdate ctx st).zoneMode = st.zoneMode := by
  obtain ⟨a, b, h⟩ := timestampUpdate_only ctx st
  rw [h]

@[simp] theorem timestampUpdate_pres_deviceTempF (ctx : Ctx) (st : ExpState) :
    (timestampUpdate ctx st).deviceTemperature = st.deviceTemperature := by
  obtain ⟨a, b, h⟩ := timestampUpdate_only ctx st
  rw [h]

@[simp] theorem timestampUpdate_pres_sysDhwF (ctx : Ctx) (st : ExpState) :
    (timestampUpdate ctx st).systemInfo = st.systemInfo ∧
    (timestampUpdate ctx st).dhwTemperature = st.dhwTemperature ∧
    (timestampUpdate ctx st).dhwSetpoint = st.dhwSetpoint ∧
    (timestampUpdate ctx st).dhwActive = st.dhwActive ∧
    (timestampUpdate ctx st).dhwMode = st.dhwMode := by
  obtain ⟨a, b, h⟩ := timestampUpdate_only ctx st
  rw [h]; exact ⟨rfl, rfl, rfl, rfl, rfl⟩

@[simp] theorem timestampUpdate_pres_countersF (ctx : Ctx) (st : ExpState) :
    (timestampUpdate ctx st).messagesTotal = st.messagesTotal ∧
    (timestampUpdate ctx st).messageTypesCounter = st.messageTypesCounter ∧
    (timestampUpdate ctx st).deviceCommunicationsCounter = st.deviceCommunicationsCounter := by
  obtain ⟨a, b, h⟩ := timestampUpdate_only ctx st
  rw [h]; exact ⟨rfl, rfl, rfl⟩

@[simp] theorem timestampUpdate_pres_boilerCtrF (ctx : Ctx) (st : ExpState) :
    (timestampUpdate ctx st).boilerMessagesSent = st.boilerMessagesSent ∧
    (timestampUpdate ctx st).boilerMessagesReceived = st.boilerMessagesReceived := by
  obtain ⟨a, b, h⟩ := timestampUpdate_only ctx st
  rw [h]; exact ⟨rfl, rfl⟩

@[simp] theorem ruleSize_pres_caches (msg : Msg) (st : ExpState) :
    (ruleSize msg st).deviceNameCache = st.deviceNameCache ∧
    (ruleSize msg st).zoneNameCache = st.zoneNameCache ∧
    (ruleSize msg st).zoneDevicesMap = st.zoneDevicesMap := by
  obtain ⟨v, h⟩ := ruleSize_only msg st
  rw [h]; exact ⟨rfl, rfl, rfl⟩

@[simp] theorem ruleSize_pres_zoneModeF (msg : Msg) (st : ExpState) :
    (ruleSize msg st).zoneMode = st.zoneMode := by
  obtain ⟨v, h⟩ := ruleSize_only msg st
  rw [h]

@[simp] theorem ruleSize_pres_deviceTempF (msg : Msg) (st : ExpState) :
    (ruleSize msg st).deviceTemperature = st.deviceTemperature := by
  obtain ⟨v, h⟩ := ruleSize_only msg st
  rw [h]

@[simp] theorem ruleSize_pres_sysDhwF (msg : Msg) (st : ExpState) :
    (ruleSize msg st).systemInfo = st.systemInfo ∧
    (ruleSize msg st).dhwTemperature = st.dhwTemperature ∧
    (ruleSize msg st).dhwSetpoint = st.dhwSetpoint ∧
    (ruleSize msg st).dhwActive = st.dhwActive ∧
    (ruleSize msg st).dhwMode = st.dhwMode := by
  obtain ⟨v, h⟩ := ruleSize_only msg st
  rw [h]; exact ⟨rfl, rfl, rfl, rfl, rfl⟩

@[simp] theorem ruleSize_pres_countersF (msg : Msg) (st : ExpState) :
    (ruleSize msg st).messagesTotal = st.messagesTotal ∧
    (ruleSize msg st).messageTypesCounter = st.messageTypesCounter ∧
    (ruleSize msg st).deviceCommunicationsCounter = st.deviceCommunicationsCounter := by
  obtain ⟨v, h⟩ := ruleSize_only msg st
  rw [h]; exact ⟨rfl, rfl, rfl⟩

@[simp] theorem ruleSize_pres_boilerCtrF (msg : Msg) (st : ExpState) :
    (ruleSize msg st).boilerMessagesSent = st.boilerMessagesSent ∧
    (ruleSize msg st).boilerMessagesReceived = st.boilerMessagesReceived := by
  obtain ⟨v, h⟩ := ruleSize_only msg st
  rw [h]; exact ⟨rfl, rfl⟩

@[simp] theorem ruleZoneName_pres_zoneModeF (ctx : Ctx) (msg : Msg) (st : ExpState) :
    (ruleZoneName ctx msg st).zoneMode = st.zoneMode := by
  obtain ⟨a, b, c, h⟩ := ruleZoneName_only ctx msg st
  rw [h]

@[simp] theorem ruleZoneName_pres_deviceTempF (ctx : Ctx) (msg : Msg) (st : ExpState) :
    (ruleZoneName ctx msg st).deviceTemperature = st.deviceTemperature := by
  obtain ⟨a, b, c, h⟩ := ruleZoneName_only ctx msg st
  rw [h]

@[simp] theorem ruleZoneName_pres_sysDhwF (ctx : Ctx) (msg : Msg) (st : ExpState) :
    (ruleZoneName ctx msg st).systemInfo = st.systemInfo ∧
    (ruleZoneName ctx msg st).dhwTemperature = st.dhwTemperature ∧
    (ruleZoneName ctx msg st).dhwSetpoint = st.dhwSetpoint ∧
    (ruleZoneName ctx msg st).dhwActive = st.dhwActive ∧
    (ruleZoneName ctx msg st).dhwMode = st.dhwMode := by
  obtain ⟨a, b, c, h⟩ := ruleZoneName_only ctx msg st
  rw [h]; exact ⟨rfl, rfl, rfl, rfl, rfl⟩

@[simp] theorem ruleZoneName_pres_countersF (ctx : Ctx) (msg : Msg) (st : ExpState) :
    (ruleZoneName ctx msg st).messagesTotal = st.messagesTotal ∧
    (ruleZoneName ctx msg st).messageTypesCounter = st.messageTypesCounter ∧
    (ruleZoneName ctx msg st).deviceCommunicationsCounter = st.deviceCommunicationsCounter := by
  obtain ⟨a, b, c, h⟩ := ruleZoneName_only ctx msg st
  rw [h]; exact ⟨rfl, rfl, rfl⟩

@[simp] theorem ruleZoneName_pres_boilerCtrF (ctx : Ctx) (msg : Msg) (st : ExpState) :
    (ruleZoneName ctx msg st).boilerMessagesSent = st.boilerMessagesSent ∧
    (ruleZoneName ctx msg st).boilerMessagesReceived = st.boilerMessagesReceived := by
  obtain ⟨a, b, c, h⟩ := ruleZoneName_only ctx msg st
  rw [h]; exact ⟨rfl, rfl⟩

@[simp] theorem ruleZoneDevices_pres_zoneModeF (ctx : Ctx) (msg : Msg) (st : ExpState) :
    (ruleZoneDevices ctx msg st).zoneMode = st.zoneMode := by
  obtain ⟨v, h⟩ := ruleZoneDevices_only ctx msg st
  rw [h]

@[simp] theorem ruleZoneDevices_pres_deviceTempF (ctx : Ctx) (msg : Msg) (st : ExpState) :
    (ruleZoneDevices ctx msg st).deviceTemperature = st.deviceTemperature := by
  obtain ⟨v, h⟩ := ruleZoneDevices_only ctx msg st
  rw [h]

@[simp] theorem ruleZoneDevices_pres_sysDhwF (ctx : Ctx) (msg : Msg) (st : ExpState) :
    (ruleZoneDevices ctx msg st).systemInfo = st.systemInfo ∧
    (ruleZoneDevices ctx msg st).dhwTemperature = st.dhwTemperature ∧
    (ruleZoneDevices ctx msg st).dhwSetpoint = st.dhwSetpoint ∧
    (ruleZoneDevices ctx msg st).dhwActive = st.dhwActive ∧
    (ruleZoneDevices ctx msg st).dhwMode = st.dhwMode := by
  obtain ⟨v, h⟩ := ruleZoneDevices_only ctx msg st
  rw [h]; exact ⟨rfl, rfl, rfl, rfl, rfl⟩

@[simp] theorem ruleZoneDevices_pres_countersF (ctx : Ctx) (msg : Msg) (st : ExpState) :
    (ruleZoneDevices ctx msg st).messagesTotal = st.messagesTotal ∧
    (ruleZoneDevices ctx msg st).messageTypesCounter = st.messageTypesCounter ∧
    (ruleZoneDevices ctx msg st).deviceCommunicationsCounter = st.deviceCommunicationsCounter := by
  obtain ⟨v, h⟩ := ruleZoneDevices_only ctx msg st
  rw [h]; exact ⟨rfl, rfl, rfl⟩

@[simp] theorem ruleZoneDevices_pres_boilerCtrF (ctx : Ctx) (msg : Msg) (st : ExpState) :
    (ruleZoneDevices ctx msg st).boilerMessagesSent = st.boilerMessagesSent ∧
    (ruleZoneDevices ctx msg st).boilerMessagesReceived = st.boilerMessagesReceived := by
  obtain ⟨v, h⟩ := ruleZoneDevices_only ctx msg st
  rw [h]; exact ⟨rfl, rfl⟩

@[simp] theorem ruleTemperature_pres_caches (ctx : Ctx) (msg : Msg) (st : ExpState) :
    (ruleTemperature ctx msg st).deviceNameCache = st.deviceNameCache ∧
    (ruleTemperature ctx msg st).zoneNameCache = st.zoneNameCache ∧
    (ruleTemperature ctx msg st).zoneDevicesMap = st.zoneDevicesMap := by
  obtain ⟨v, h⟩ := ruleTemperature_only ctx msg st
  rw [h]; exact ⟨rfl, rfl, rfl⟩

@[simp] theorem ruleTemperature_pres_zoneModeF (ctx : Ctx) (msg : Msg) (st : ExpState) :
    (ruleTemperature ctx msg st).zoneMode = st.zoneMode := by
  obtain ⟨v, h⟩ := ruleTemperature_only ctx msg st
  rw [h]

@[simp] theorem ruleTemperature_pres_sysDhwF (ctx : Ctx) (msg : Msg) (st : ExpState) :
    (ruleTemperature ctx msg st).systemInfo = st.systemInfo ∧
    (ruleTemperature ctx msg st).dhwTemperature = st.dhwTemperature ∧
    (ruleTemperature ctx msg st).dhwSetpoint = st.dhwSetpoint ∧
    (ruleTemperature ctx msg st).dhwActive = st.dhwActive ∧
    (ruleTemperature ctx msg st).dhwMode = st.dhwMode := by
  obtain ⟨v, h⟩ := ruleTemperature_only ctx msg st
  rw [h]; exact ⟨rfl, rfl, rfl, rfl, rfl⟩

@[simp] theorem ruleTemperature_pres_countersF (ctx : Ctx) (msg : Msg) (st : ExpState) :
    (ruleTemperature ctx msg st).messagesTotal = st.messagesTotal ∧
    (ruleTemperature ctx msg st).messageTypesCounter = st.messageTypesCounter ∧
    (ruleTemperature ctx msg st).deviceCommunicationsCounter = st.deviceCommunicationsCounter := by
  obtain ⟨v, h⟩ := ruleTemperature_only ctx msg st
  rw [h]; exact ⟨rfl, rfl, rfl⟩

@[simp] theorem ruleTemperature_pres_boilerCtrF (ctx : Ctx) (msg : Msg) (st : ExpState) :
    (ruleTemperature ctx msg st).boilerMessagesSent = st.boilerMessagesSent ∧
    (ruleTemperature ctx msg st).boilerMessagesReceived = st.boilerMessagesReceived := by
  obtain ⟨v, h⟩ := ruleTemperature_only ctx msg st
  rw [h]; exact ⟨rfl, rfl⟩

@[simp] theorem ruleSetpoint_pres_caches (ctx : Ctx) (msg : Msg) (st : ExpState) :
    (ruleSetpoint ctx msg st).deviceNameCache = st.deviceNameCache ∧
    (ruleSetpoint ctx msg st).zoneNameCache = st.zoneNameCache ∧
    (ruleSetpoint ctx msg st).zoneDevicesMap = st.zoneDevicesMap := by
  obtain ⟨v, h⟩ := ruleSetpoint_only ctx msg st
  rw [h]; exact ⟨rfl, rfl, rfl⟩

@[simp] theorem ruleSetpoint_pres_zoneModeF (ctx : Ctx) (msg : Msg) (st : ExpState) :
    (ruleSetpoint ctx msg st).zoneMode = st.zoneMode := by
  obtain ⟨v, h⟩ := ruleSetpoint_only ctx msg st
  rw [h]

@[simp] theorem ruleSetpoint_pres_deviceTempF (ctx : Ctx) (msg : Msg) (st : ExpState) :
    (ruleSetpoint ctx msg st).deviceTemperature = st.deviceTemperature := by
  obtain ⟨v, h⟩ := ruleSetpoint_only ctx msg st
  rw [h]

@[simp] theorem ruleSetpoint_pres_sysDhwF (ctx : Ctx) (msg : Msg) (st : ExpState) :
    (ruleSetpoint ctx msg st).systemInfo = st.systemInfo ∧
    (ruleSetpoint ctx msg st).dhwTemperature = st.dhwTemperature ∧
    (ruleSetpoint ctx msg st).dhwSetpoint = st.dhwSetpoint ∧
    (ruleSetpoint ctx msg st).dhwActive = st.dhwActive ∧
    (ruleSetpoint ctx msg st).dhwMode = st.dhwMode := by
  obtain ⟨v, h⟩ := ruleSetpoint_only ctx msg st
  rw [h]; exact ⟨rfl, rfl, rfl, rfl, rfl⟩

@[simp] theorem ruleSetpoint_pres_countersF (ctx : Ctx) (msg : Msg) (st : ExpState) :
    (ruleSetpoint ctx msg st).messagesTotal = st.messagesTotal ∧
    (ruleSetpoint ctx msg st).messageTypesCounter = st.messageTypesCounter ∧
    (ruleSetpoint ctx msg st).deviceCommunicationsCounter = st.deviceCommunicationsCounter := by
  obtain ⟨v, h⟩ := ruleSetpoint_only ctx msg st
  rw [h]; exact ⟨rfl, rfl, rfl⟩

@[simp] theorem ruleSetpoint_pres_boilerCtrF (ctx : Ctx) (msg : Msg) (st : ExpState) :
    (ruleSetpoint ctx msg st).boilerMessagesSent = st.boilerMessagesSent ∧
    (ruleSetpoint ctx msg st).boilerMessagesReceived = st.boilerMessagesReceived := by
  obtain ⟨v, h⟩ := ruleSetpoint_only ctx msg st
  rw [h]; exact ⟨rfl, rfl⟩

@[simp] theorem ruleWindow_pres_caches (ctx : Ctx) (msg : Msg) (st : ExpState) :
    (ruleWindow ctx msg st).deviceNameCache = st.deviceNameCache ∧
    (ruleWindow ctx msg st).zoneNameCache = st.zoneNameCache ∧
    (ruleWindow ctx msg st).zoneDevicesMap = st.zoneDevicesMap := by
  obtain ⟨v, h⟩ := ruleWindow_only ctx msg st
  rw [h]; exact ⟨rfl, rfl, rfl⟩

@[simp] theorem ruleWindow_pres_zoneModeF (ctx : Ctx) (msg : Msg) (st : ExpState) :
    (ruleWindow ctx msg st).zoneMode = st.zoneMode := by
  obtain ⟨v, h⟩ := ruleWindow_only ctx msg st
  rw [h]

@[simp] theorem ruleWindow_pres_deviceTempF (ctx : Ctx) (msg : Msg) (st : ExpState) :
    (ruleWindow ctx msg st).deviceTemperature = st.deviceTemperature := by
  obtain ⟨v, h⟩ := ruleWindow_only ctx msg st
  rw [h]

@[simp] theorem ruleWindow_pres_sysDhwF (ctx : Ctx) (msg : Msg) (st : ExpState) :
    (ruleWindow ctx msg st).systemInfo = st.systemInfo ∧
    (ruleWindow ctx msg st).dhwTemperature = st.dhwTemperature ∧
    (ruleWindow ctx msg st).dhwSetpoint = st.dhwSetpoint ∧
    (ruleWindow ctx msg st).dhwActive = st.dhwActive ∧
    (ruleWindow ctx msg st).dhwMode = st.dhwMode := by
  obtain ⟨v, h⟩ := ruleWindow_only ctx msg st
  rw [h]; exact ⟨rfl, rfl, rfl, rfl, rfl⟩

@[simp] theorem ruleWindow_pres_countersF (ctx : Ctx) (msg : Msg) (st : ExpState) :
    (ruleWindow ctx msg st).messagesTotal = st.messagesTotal ∧
    (ruleWindow ctx msg st).messageTypesCounter = st.messageTypesCounter ∧
    (ruleWindow ctx msg st).deviceCommunicationsCounter = st.deviceCommunicationsCounter := by
  obtain ⟨v, h⟩ := ruleWindow_only ctx msg st
  rw [h]; exact ⟨rfl, rfl, rfl⟩

@[simp] theorem ruleWindow_pres_boilerCtrF (ctx : Ctx) (msg : Msg) (st : ExpState) :
    (ruleWindow ctx msg st).boilerMessagesSent = st.boilerMessagesSent ∧
    (ruleWindow ctx msg st).boilerMessagesReceived = st.boilerMessagesReceived := by
  obtain ⟨v, h⟩ := ruleWindow_only ctx msg st
  rw [h]; exact ⟨rfl, rfl⟩

@[simp] theorem ruleWindow_pres_deviceSetpointF (ctx : Ctx) (msg : Msg) (st : ExpState) :
    (ruleWindow ctx msg st).deviceSetpoint = st.deviceSetpoint := by
  obtain ⟨v, h⟩ := ruleWindow_only ctx msg st
  rw [h]

@[simp] theorem ruleMode_pres_caches (ctx : Ctx) (msg : Msg) (st : ExpState) :
    (ruleMode ctx msg st).deviceNameCache = st.deviceNameCache ∧
    (ruleMode ctx msg st).zoneNameCache = st.zoneNameCache ∧
    (ruleMode ctx msg st).zoneDevicesMap = st.zoneDevicesMap := by
  obtain ⟨v, h⟩ := ruleMode_only ctx msg st
  rw [h]; exact ⟨rfl, rfl, rfl⟩

@[simp] theorem ruleMode_pres_deviceTempF (ctx : Ctx) (msg : Msg) (st : ExpState) :
    (ruleMode ctx msg st).deviceTemperature = st.deviceTemperature := by
  obtain ⟨v, h⟩ := ruleMode_only ctx msg st
  rw [h]

@[simp] theorem ruleMode_pres_sysDhwF (ctx : Ctx) (msg : Msg) (st : ExpState) :
    (ruleMode ctx msg st).systemInfo = st.systemInfo ∧
    (ruleMode ctx msg st).dhwTemperature = st.dhwTemperature ∧
    (ruleMode ctx msg st).dhwSetpoint = st.dhwSetpoint ∧
    (ruleMode ctx msg st).dhwActive = st.dhwActive ∧
    (ruleMode ctx msg st).dhwMode = st.dhwMode := by
  obtain ⟨v, h⟩ := ruleMode_only ctx msg st
  rw [h]; exact ⟨rfl, rfl, rfl, rfl, rfl⟩

@[simp] theorem ruleMode_pres_countersF (ctx : Ctx) (msg : Msg) (st : ExpState) :
    (ruleMode ctx msg st).messagesTotal = st.messagesTotal ∧
    (ruleMode ctx msg st).messageTypesCounter = st.messageTypesCounter ∧
    (ruleMode ctx msg st).deviceCommunicationsCounter = st.deviceCommunicationsCounter := by
  obtain ⟨v, h⟩ := ruleMode_only ctx msg st
  rw [h]; exact ⟨rfl, rfl, rfl⟩

@[simp] theorem ruleMode_pres_boilerCtrF (ctx : Ctx) (msg : Msg) (st : ExpState) :
    (ruleMode ctx msg st).boilerMessagesSent = st.boilerMessagesSent ∧
    (ruleMode ctx msg st).boilerMessagesReceived = st.boilerMessagesReceived := by
  obtain ⟨v, h⟩ := ruleMode_only ctx msg st
  rw [h]; exact ⟨rfl, rfl⟩

@[simp] theorem ruleMode_pres_deviceSetpointF (ctx : Ctx) (msg : Msg) (st : ExpState) :
    (ruleMode ctx msg st).deviceSetpoint = st.deviceSetpoint := by
  obtain ⟨v, h⟩ := ruleMode_only ctx msg st
  rw [h]

@[simp] theorem ruleHeatDemand_pres_caches (ctx : Ctx) (msg : Msg) (st : ExpState) :
    (ruleHeatDemand ctx msg st).deviceNameCache = st.deviceNameCache ∧
    (ruleHeatDemand ctx msg st).zoneNameCache = st.zoneNameCache ∧
    (ruleHeatDemand ctx msg st).zoneDevicesMap = st.zoneDevicesMap := by
  obtain ⟨v, h⟩ := ruleHeatDemand_only ctx msg st
  rw [h]; exact ⟨rfl, rfl, rfl⟩

@[simp] theorem ruleHeatDemand_pres_zoneModeF (ctx : Ctx) (msg : Msg) (st : ExpState) :
    (ruleHeatDemand ctx msg st).zoneMode = st.zoneMode := by
  obtain ⟨v, h⟩ := ruleHeatDemand_only ctx msg st
  rw [h]

@[simp] theorem ruleHeatDemand_pres_deviceTempF (ctx : Ctx) (msg : Msg) (st : ExpState) :
    (ruleHeatDemand ctx msg st).deviceTemperature = st.deviceTemperature := by
  obtain ⟨v, h⟩ := ruleHeatDemand_only ctx msg st
  rw [h]

@[simp] theorem ruleHeatDemand_pres_sysDhwF (ctx : Ctx) (msg : Msg) (st : ExpState) :
    (ruleHeatDemand ctx msg st).systemInfo = st.systemInfo ∧
    (ruleHeatDemand ctx msg st).dhwTemperature = st.dhwTemperature ∧
    (ruleHeatDemand ctx msg st).dhwSetpoint = st.dhwSetpoint ∧
    (ruleHeatDemand ctx msg st).dhwActive = st.dhwActive ∧
    (ruleHeatDemand ctx msg st).dhwMode = st.dhwMode := by
  obtain ⟨v, h⟩ := ruleHeatDemand_only ctx msg st
  rw [h]; exact ⟨rfl, rfl, rfl, rfl, rfl⟩

@[simp] theorem ruleHeatDemand_pres_countersF (ctx : Ctx) (msg : Msg) (st : ExpState) :
    (ruleHeatDemand ctx msg st).messagesTotal = st.messagesTotal ∧
    (ruleHeatDemand ctx msg st).messageTypesCounter = st.messageTypesCounter ∧
    (ruleHeatDemand ctx msg st).deviceCommunicationsCounter = st.deviceCommunicationsCounter := by
  obtain ⟨v, h⟩ := ruleHeatDemand_only ctx msg st
  rw [h]; exact ⟨rfl, rfl, rfl⟩

@[simp] theorem ruleHeatDemand_pres_boilerCtrF (ctx : Ctx) (msg : Msg) (st : ExpState) :
    (ruleHeatDemand ctx msg st).boilerMessagesSent = st.boilerMessagesSent ∧
    (ruleHeatDemand ctx msg st).boilerMessagesReceived = st.boilerMessagesReceived := by
  obtain ⟨v, h⟩ := ruleHeatDemand_only ctx msg st
  rw [h]; exact ⟨rfl, rfl⟩

@[simp] theorem ruleHeatDemand_pres_deviceSetpointF (ctx : Ctx) (msg : Msg) (st : ExpState) :
    (ruleHeatDemand ctx msg st).deviceSetpoint = st.deviceSetpoint := by
  obtain ⟨v, h⟩ := ruleHeatDemand_only ctx msg st
  rw [h]

@[simp] theorem ruleSync_pres_caches (ctx : Ctx) (msg : Msg) (st : ExpState) :
    (ruleSync ctx msg st).deviceNameCache = st.deviceNameCache ∧
    (ruleSync ctx msg st).zoneNameCache = st.zoneNameCache ∧
    (ruleSync ctx msg st).zoneDevicesMap = st.zoneDevicesMap := by
  obtain ⟨a, b, h⟩ := ruleSync_only ctx msg st
  rw [h]; exact ⟨rfl, rfl, rfl⟩

@[simp] theorem ruleSync_pres_zoneModeF (ctx : Ctx) (msg : Msg) (st : ExpState) :
    (ruleSync ctx msg st).zoneMode = st.zoneMode := by
  obtain ⟨a, b, h⟩ := ruleSync_only ctx msg st
  rw [h]

@[simp] theorem ruleSync_pres_deviceTempF (ctx : Ctx) (msg : Msg) (st : ExpState) :
    (ruleSync ctx msg st).deviceTemperature = st.deviceTemperature := by
  obtain ⟨a, b, h⟩ := ruleSync_only ctx msg st
  rw [h]

@[simp] theorem ruleSync_pres_sysDhwF (ctx : Ctx) (msg : Msg) (st : ExpState) :
    (ruleSync ctx msg st).systemInfo = st.systemInfo ∧
    (ruleSync ctx msg st).dhwTemperature = st.dhwTemperature ∧
    (ruleSync ctx msg st).dhwSetpoint = st.dhwSetpoint ∧
    (ruleSync ctx msg st).dhwActive = st.dhwActive ∧
    (ruleSync ctx msg st).dhwMode = st.dhwMode := by
  obtain ⟨a, b, h⟩ := ruleSync_only ctx msg st
  rw [h]; exact ⟨rfl, rfl, rfl, rfl, rfl⟩

@[simp] theorem ruleSync_pres_countersF (ctx : Ctx) (msg : Msg) (st : ExpState) :
    (ruleSync ctx msg st).messagesTotal = st.messagesTotal ∧
    (ruleSync ctx msg st).messageTypesCounter = st.messageTypesCounter ∧
    (ruleSync ctx msg st).deviceCommunicationsCounter = st.deviceCommunicationsCounter := by
  obtain ⟨a, b, h⟩ := ruleSync_only ctx msg st
  rw [h]; exact ⟨rfl, rfl, rfl⟩

@[simp] theorem ruleSync_pres_boilerCtrF (ctx : Ctx) (msg : Msg) (st : ExpState) :
    (ruleSync ctx msg st).boilerMessagesSent = st.boilerMessagesSent ∧
    (ruleSync ctx msg st).boilerMessagesReceived = st.boilerMessagesReceived := by
  obtain ⟨a, b, h⟩ := ruleSync_only ctx msg st
  rw [h]; exact ⟨rfl, rfl⟩

@[simp] theorem ruleSync_pres_deviceSetpointF (ctx : Ctx) (msg : Msg) (st : ExpState) :
    (ruleSync ctx msg st).deviceSetpoint = st.deviceSetpoint := by
  obtain ⟨a, b, h⟩ := ruleSync_only ctx msg st
  rw [h]

@[simp] theorem ruleSync_pres_heatDemandF (ctx : Ctx) (msg : Msg) (st : ExpState) :
    (ruleSync ctx msg st).heatDemand = st.heatDemand := by
  obtain ⟨a, b, h⟩ := ruleSync_only ctx msg st
  rw [h]

@[simp] theorem ruleFault_pres_caches (ctx : Ctx) (msg : Msg) (st : ExpState) :
    (ruleFault ctx msg st).deviceNameCache = st.deviceNameCache ∧
    (ruleFault ctx msg st).zoneNameCache = st.zoneNameCache ∧
    (ruleFault ctx msg st).zoneDevicesMap = st.zoneDevicesMap := by
  obtain ⟨a, b, c, h⟩ := ruleFault_only ctx msg st
  rw [h]; exact ⟨rfl, rfl, rfl⟩

@[simp] theorem ruleFault_pres_zoneModeF (ctx : Ctx) (msg : Msg) (st : ExpState) :
    (ruleFault ctx msg st).zoneMode = st.zoneMode := by
  obtain ⟨a, b, c, h⟩ := ruleFault_only ctx msg st
  rw [h]

@[simp] theorem ruleFault_pres_deviceTempF (ctx : Ctx) (msg : Msg) (st : ExpState) :
    (ruleFault ctx msg st).deviceTemperature = st.deviceTemperature := by
  obtain ⟨a, b, c, h⟩ := ruleFault_only ctx msg st
  rw [h]

@[simp] theorem ruleFault_pres_sysDhwF (ctx : Ctx) (msg : Msg) (st : ExpState) :
    (ruleFault ctx msg st).systemInfo = st.systemInfo ∧
    (ruleFault ctx msg st).dhwTemperature = st.dhwTemperature ∧
    (ruleFault ctx msg st).dhwSetpoint = st.dhwSetpoint ∧
    (ruleFault ctx msg st).dhwActive = st.dhwActive ∧
    (ruleFault ctx msg st).dhwMode = st.dhwMode := by
  obtain ⟨a, b, c, h⟩ := ruleFault_only ctx msg st
  rw [h]; exact ⟨rfl, rfl, rfl, rfl, rfl⟩

@[simp] theorem ruleFault_pres_countersF (ctx : Ctx) (msg : Msg) (st : ExpState) :
    (ruleFault ctx msg st).messagesTotal = st.messagesTotal ∧
    (ruleFault ctx msg st).messageTypesCounter = st.messageTypesCounter ∧
    (ruleFault ctx msg st).deviceCommunicationsCounter = st.deviceCommunicationsCounter := by
  obtain ⟨a, b, c, h⟩ := ruleFault_only ctx msg st
  rw [h]; exact ⟨rfl, rfl, rfl⟩

@[simp] theorem ruleFault_pres_boilerCtrF (ctx : Ctx) (msg : Msg) (st : ExpState) :
    (ruleFault ctx msg st).boilerMessagesSent = st.boilerMessagesSent ∧
    (ruleFault ctx msg st).boilerMessagesReceived = st.boilerMessagesReceived := by
  obtain ⟨a, b, c, h⟩ := ruleFault_only ctx msg st
  rw [h]; exact ⟨rfl, rfl⟩

@[simp] theorem ruleFault_pres_deviceSetpointF (ctx : Ctx) (msg : Msg) (st : ExpState) :
    (ruleFault ctx msg st).deviceSetpoint = st.deviceSetpoint := by
  obtain ⟨a, b, c, h⟩ := ruleFault_only ctx msg st
  rw [h]

@[simp] theorem ruleFault_pres_heatDemandF (ctx : Ctx) (msg : Msg) (st : ExpState) :
    (ruleFault ctx msg st).heatDemand = st.heatDemand := by
  obtain ⟨a, b, c, h⟩ := ruleFault_only ctx msg st
  rw [h]

@[simp] theorem ruleBoilerSetpoint_pres_caches (ctx : Ctx) (msg : Msg) (st : ExpState) :
    (ruleBoilerSetpoint ctx msg st).deviceNameCache = st.deviceNameCache ∧
    (ruleBoilerSetpoint ctx msg st).zoneNameCache = st.zoneNameCache ∧
    (ruleBoilerSetpoint ctx msg st).zoneDevicesMap = st.zoneDevicesMap := by
  obtain ⟨v, h⟩ := ruleBoilerSetpoint_only ctx msg st
  rw [h]; exact ⟨rfl, rfl, rfl⟩

@[simp] theorem ruleBoilerSetpoint_pres_zoneModeF (ctx : Ctx) (msg : Msg) (st : ExpState) :
    (ruleBoilerSetpoint ctx msg st).zoneMode = st.zoneMode := by
  obtain ⟨v, h⟩ := ruleBoilerSetpoint_only ctx msg st
  rw [h]

@[simp] theorem ruleBoilerSetpoint_pres_deviceTempF (ctx : Ctx) (msg : Msg) (st : ExpState) :
    (ruleBoilerSetpoint ctx msg st).deviceTemperature = st.deviceTemperature := by
  obtain ⟨v, h⟩ := ruleBoilerSetpoint_only ctx msg st
  rw [h]

@[simp] theorem ruleBoilerSetpoint_pres_sysDhwF (ctx : Ctx) (msg : Msg) (st : ExpState) :
    (ruleBoilerSetpoint ctx msg st).systemInfo = st.systemInfo ∧
    (ruleBoilerSetpoint ctx msg st).dhwTemperature = st.dhwTemperature ∧
    (ruleBoilerSetpoint ctx msg st).dhwSetpoint = st.dhwSetpoint ∧
    (ruleBoilerSetpoint ctx msg st).dhwActive = st.dhwActive ∧
    (ruleBoilerSetpoint ctx msg st).dhwMode = st.dhwMode := by
  obtain ⟨v, h⟩ := ruleBoilerSetpoint_only ctx msg st
  rw [h]; exact ⟨rfl, rfl, rfl, rfl, rfl⟩

@[simp] theorem ruleBoilerSetpoint_pres_countersF (ctx : Ctx) (msg : Msg) (st : ExpState) :
    (ruleBoilerSetpoint ctx msg st).messagesTotal = st.messagesTotal ∧
    (ruleBoilerSetpoint ctx msg st).messageTypesCounter = st.messageTypesCounter ∧
    (ruleBoilerSetpoint ctx msg st).deviceCommunicationsCounter = st.deviceCommunicationsCounter := by
  obtain ⟨v, h⟩ := ruleBoilerSetpoint_only ctx msg st
  rw [h]; exact ⟨rfl, rfl, rfl⟩

@[simp] theorem ruleBoilerSetpoint_pres_boilerCtrF (ctx : Ctx) (msg : Msg) (st : ExpState) :
    (ruleBoilerSetpoint ctx msg st).boilerMessagesSent = st.boilerMessagesSent ∧
    (ruleBoilerSetpoint ctx msg st).boilerMessagesReceived = st.boilerMessagesReceived := by
  obtain ⟨v, h⟩ := ruleBoilerSetpoint_only ctx msg st
  rw [h]; exact ⟨rfl, rfl⟩

@[simp] theorem ruleBoilerSetpoint_pres_deviceSetpointF (ctx : Ctx) (msg : Msg) (st : ExpState) :
    (ruleBoilerSetpoint ctx msg st).deviceSetpoint = st.deviceSetpoint := by
  obtain ⟨v, h⟩ := ruleBoilerSetpoint_only ctx msg st
  rw [h]

@[simp] theorem ruleBoilerSetpoint_pres_heatDemandF (ctx : Ctx) (msg : Msg) (st : ExpState) :
    (ruleBoilerSetpoint ctx msg st).heatDemand = st.heatDemand := by
  obtain ⟨v, h⟩ := ruleBoilerSetpoint_only ctx msg st
  rw [h]

@[simp] theorem ruleBoilerStatus_pres_caches (ctx : Ctx) (msg : Msg) (st : ExpState) :
    (ruleBoilerStatus ctx msg st).deviceNameCache = st.deviceNameCache ∧
    (ruleBoilerStatus ctx msg st).zoneNameCache = st.zoneNameCache ∧
    (ruleBoilerStatus ctx msg st).zoneDevicesMap = st.zoneDevicesMap := by
  obtain ⟨a, b, c, d, h⟩ := ruleBoilerStatus_only ctx msg st
  rw [h]; exact ⟨rfl, rfl, rfl⟩

@[simp] theorem ruleBoilerStatus_pres_zoneModeF (ctx : Ctx) (msg : Msg) (st : ExpState) :
    (ruleBoilerStatus ctx msg st).zoneMode = st.zoneMode := by
  obtain ⟨a, b, c, d, h⟩ := ruleBoilerStatus_only ctx msg st
  rw [h]

@[simp] theorem ruleBoilerStatus_pres_deviceTempF (ctx : Ctx) (msg : Msg) (st : ExpState) :
    (ruleBoilerStatus ctx msg st).deviceTemperature = st.deviceTemperature := by
  obtain ⟨a, b, c, d, h⟩ := ruleBoilerStatus_only ctx msg st
  rw [h]

@[simp] theorem ruleBoilerStatus_pres_sysDhwF (ctx : Ctx) (msg : Msg) (st : ExpState) :
    (ruleBoilerStatus ctx msg st).systemInfo = st.systemInfo ∧
    (ruleBoilerStatus ctx msg st).dhwTemperature = st.dhwTemperature ∧
    (ruleBoilerStatus ctx msg st).dhwSetpoint = st.dhwSetpoint ∧
    (ruleBoilerStatus ctx msg st).dhwActive = st.dhwActive ∧
    (ruleBoilerStatus ctx msg st).dhwMode = st.dhwMode := by
  obtain ⟨a, b, c, d, h⟩ := ruleBoilerStatus_only ctx msg st
  rw [h]; exact ⟨rfl, rfl, rfl, rfl, rfl⟩

@[simp] theorem ruleBoilerStatus_pres_countersF (ctx : Ctx) (msg : Msg) (st : ExpState) :
    (ruleBoilerStatus ctx msg st).messagesTotal = st.messagesTotal ∧
    (ruleBoilerStatus ctx msg st).messageTypesCounter = st.messageTypesCounter ∧
    (ruleBoilerStatus ctx msg st).deviceCommunicationsCounter = st.deviceCommunicationsCounter := by
  obtain ⟨a, b, c, d, h⟩ := ruleBoilerStatus_only ctx msg st
  rw [h]; exact ⟨rfl, rfl, rfl⟩

@[simp] theorem ruleBoilerStatus_pres_boilerCtrF (ctx : Ctx) (msg : Msg) (st : ExpState) :
    (ruleBoilerStatus ctx msg st).boilerMessagesSent = st.boilerMessagesSent ∧
    (ruleBoilerStatus ctx msg st).boilerMessagesReceived = st.boilerMessagesReceived := by
  obtain ⟨a, b, c, d, h⟩ := ruleBoilerStatus_only ctx msg st
  rw [h]; exact ⟨rfl, rfl⟩

@[simp] theorem ruleBoilerStatus_pres_deviceSetpointF (ctx : Ctx) (msg : Msg) (st : ExpState) :
    (ruleBoilerStatus ctx msg st).deviceSetpoint = st.deviceSetpoint := by
  obtain ⟨a, b, c, d, h⟩ := ruleBoilerStatus_only ctx msg st
  rw [h]

@[simp] theorem ruleBoilerStatus_pres_heatDemandF (ctx : Ctx) (msg : Msg) (st : ExpState) :
    (ruleBoilerStatus ctx msg st).heatDemand = st.heatDemand := by
  obtain ⟨a, b, c, d, h⟩ := ruleBoilerStatus_only ctx msg st
  rw [h]

@[simp] theorem ruleDhw_pres_caches (ctx : Ctx) (msg : Msg) (st : ExpState) :
    ((ruleDhw ctx msg st).1).deviceNameCache = st.deviceNameCache ∧
    ((ruleDhw ctx msg st).1).zoneNameCache = st.zoneNameCache ∧
    ((ruleDhw ctx msg st).1).zoneDevicesMap = st.zoneDevicesMap := by
  obtain ⟨a, b, c, d, err, h⟩ := ruleDhw_only ctx msg st
  rw [h]; exact ⟨rfl, rfl, rfl⟩

@[simp] theorem ruleDhw_pres_zoneModeF (ctx : Ctx) (msg : Msg) (st : ExpState) :
    ((ruleDhw ctx msg st).1).zoneMode = st.zoneMode := by
  obtain ⟨a, b, c, d, err, h⟩ := ruleDhw_only ctx msg st
  rw [h]

@[simp] theorem ruleDhw_pres_deviceTempF (ctx : Ctx) (msg : Msg) (st : ExpState) :
    ((ruleDhw ctx msg st).1).deviceTemperature = st.deviceTemperature := by
  obtain ⟨a, b, c, d, err, h⟩ := ruleDhw_only ctx msg st
  rw [h]

@[simp] theorem ruleDhw_pres_countersF (ctx : Ctx) (msg : Msg) (st : ExpState) :
    ((ruleDhw ctx msg st).1).messagesTotal = st.messagesTotal ∧
    ((ruleDhw ctx msg st).1).messageTypesCounter = st.messageTypesCounter ∧
    ((ruleDhw ctx msg st).1).deviceCommunicationsCounter = st.deviceCommunicationsCounter := by
  obtain ⟨a, b, c, d, err, h⟩ := ruleDhw_only ctx msg st
  rw [h]; exact ⟨rfl, rfl, rfl⟩

@[simp] theorem ruleDhw_pres_boilerCtrF (ctx : Ctx) (msg : Msg) (st : ExpState) :
    ((ruleDhw ctx msg st).1).boilerMessagesSent = st.boilerMessagesSent ∧
    ((ruleDhw ctx msg st).1).boilerMessagesReceived = st.boilerMessagesReceived := by
  obtain ⟨a, b, c, d, err, h⟩ := ruleDhw_only ctx msg st
  rw [h]; exact ⟨rfl, rfl⟩

@[simp] theorem ruleDhw_pres_deviceSetpointF (ctx : Ctx) (msg : Msg) (st : ExpState) :
    ((ruleDhw ctx msg st).1).deviceSetpoint = st.deviceSetpoint := by
  obtain ⟨a, b, c, d, err, h⟩ := ruleDhw_only ctx msg st
  rw [h]

@[simp] theorem ruleDhw_pres_heatDemandF (ctx : Ctx) (msg : Msg) (st : ExpState) :
    ((ruleDhw ctx msg st).1).heatDemand = st.heatDemand := by
  obtain ⟨a, b, c, d, err, h⟩ := ruleDhw_only ctx msg st
  rw [h]

@[simp] theorem finalPhase_pres_caches (ctx : Ctx) (msg : Msg) (st : ExpState) :
    (finalPhase ctx msg st).deviceNameCache = st.deviceNameCache ∧
    (finalPhase ctx msg st).zoneNameCache = st.zoneNameCache ∧
    (finalPhase ctx msg st).zoneDevicesMap = st.zoneDevicesMap := by
  obtain ⟨a, b, h⟩ := finalPhase_only ctx msg st
  rw [h]; exact ⟨rfl, rfl, rfl⟩

@[simp] theorem finalPhase_pres_zoneModeF (ctx : Ctx) (msg : Msg) (st : ExpState) :
    (finalPhase ctx msg st).zoneMode = st.zoneMode := by
  obtain ⟨a, b, h⟩ := finalPhase_only ctx msg st
  rw [h]

@[simp] theorem finalPhase_pres_deviceTempF (ctx : Ctx) (msg : Msg) (st : ExpState) :
    (finalPhase ctx msg st).deviceTemperature = st.deviceTemperature := by
  obtain ⟨a, b, h⟩ := finalPhase_only ctx msg st
  rw [h]

@[simp] theorem finalPhase_pres_countersF (ctx : Ctx) (msg : Msg) (st : ExpState) :
    (finalPhase ctx msg st).messagesTotal = st.messagesTotal ∧
    (finalPhase ctx msg st).messageTypesCounter = st.messageTypesCounter ∧
    (finalPhase ctx msg st).deviceCommunicationsCounter = st.deviceCommunicationsCounter := by
  obtain ⟨a, b, h⟩ := finalPhase_only ctx msg st
  rw [h]; exact ⟨rfl, rfl, rfl⟩

@[simp] theorem finalPhase_pres_boilerCtrF (ctx : Ctx) (msg : Msg) (st : ExpState) :
    (finalPhase ctx msg st).boilerMessagesSent = st.boilerMessagesSent ∧
    (finalPhase ctx msg st).boilerMessagesReceived = st.boilerMessagesReceived := by
  obtain ⟨a, b, h⟩ := finalPhase_only ctx msg st
  rw [h]; exact ⟨rfl, rfl⟩

@[simp] theorem finalPhase_pres_deviceSetpointF (ctx : Ctx) (msg : Msg) (st : ExpState) :
    (finalPhase ctx msg st).deviceSetpoint = st.deviceSetpoint := by
  obtain ⟨a, b, h⟩ := finalPhase_only ctx msg st
  rw [h]

@[simp] theorem finalPhase_pres_heatDemandF (ctx : Ctx) (msg : Msg) (st : ExpState) :
    (finalPhase ctx msg st).heatDemand = st.heatDemand := by
  obtain ⟨a, b, h⟩ := finalPhase_only ctx msg st
  rw [h]

@[simp] theorem ruleZoneName_pres_cachesZN (ctx : Ctx) (msg : Msg) (st : ExpState) :
    (ruleZoneName ctx msg st).deviceNameCache = st.deviceNameCache ∧
    (ruleZoneName ctx msg st).zoneDevicesMap = st.zoneDevicesMap := by
  obtain ⟨a, b, c, h⟩ := ruleZoneName_only ctx msg st
  rw [h]; exact ⟨rfl, rfl⟩

@[simp] theorem ruleZoneDevices_pres_cachesZD (ctx : Ctx) (msg : Msg) (st : ExpState) :
    (ruleZoneDevices ctx msg st).deviceNameCache = st.deviceNameCache ∧
    (ruleZoneDevices ctx msg st).zoneNameCache = st.zoneNameCache := by
  obtain ⟨v, h⟩ := ruleZoneDevices_only ctx msg st
  rw [h]; exact ⟨rfl, rfl⟩

@[simp] theorem ruleDhw_pres_sysInfoF (ctx : Ctx) (msg : Msg) (st : ExpState) :
    ((ruleDhw ctx msg st).1).systemInfo = st.systemInfo := by
  obtain ⟨a, b, c, d, err, h⟩ := ruleDhw_only ctx msg st
  rw [h]

/-! ## Phase-level preservation lemmas -/

@[simp] theorem payloadPhase_pres_dnc (ctx : Ctx) (msg : Msg) (st : ExpState) :
    (payloadPhase ctx msg st).deviceNameCache = st.deviceNameCache := by
  unfold payloadPhase
  (repeat' split) <;> simp

@[simp] theorem payloadPhase_pres_countersF (ctx : Ctx) (msg : Msg) (st : ExpState) :
    (payloadPhase ctx msg st).messagesTotal = st.messagesTotal ∧
    (payloadPhase ctx msg st).messageTypesCounter = st.messageTypesCounter ∧
    (payloadPhase ctx msg st).deviceCommunicationsCounter = st.deviceCommunicationsCounter := by
  unfold payloadPhase
  (repeat' split) <;> simp

@[simp] theorem payloadPhase_pres_boilerCtrF (ctx : Ctx) (msg : Msg) (st : ExpState) :
    (payloadPhase ctx msg st).boilerMessagesSent = st.boilerMessagesSent ∧
    (payloadPhase ctx msg st).boilerMessagesReceived = st.boilerMessagesReceived := by
  unfold payloadPhase
  (repeat' split) <;> simp

@[simp] theorem payloadPhase_pres_sysDhwF (ctx : Ctx) (msg : Msg) (st : ExpState) :
    (payloadPhase ctx msg st).systemInfo = st.systemInfo ∧
    (payloadPhase ctx msg st).dhwTemperature = st.dhwTemperature ∧
    (payloadPhase ctx msg st).dhwSetpoint = st.dhwSetpoint ∧
    (payloadPhase ctx msg st).dhwActive = st.dhwActive ∧
    (payloadPhase ctx msg st).dhwMode = st.dhwMode := by
  unfold payloadPhase
  (repeat' split) <;> simp

@[simp] theorem captureMessageMetrics_pres_dnc (ctx : Ctx) (msg : Msg) (st : ExpState) :
    (captureMessageMetrics ctx msg st).1.deviceNameCache = st.deviceNameCache := by
  unfold captureMessageMetrics
  rcases hr : ruleDhw ctx msg (payloadPhase ctx msg (timestampUpdate ctx (boilerTracking ctx msg
    (genericCounters ctx msg (lastSeenUpdate ctx msg st))))) with ⟨st1, err⟩
  have h : st1.deviceNameCache = st.deviceNameCache := by
    have h2 := congrArg (fun p => p.1.deviceNameCache) hr
    simpa using h2.symm
  cases err <;> simp [h]

@[simp] theorem dispatchMessage_pres_dnc (ctx : Ctx) (msg : Msg) (st : ExpState) :
    (dispatchMessage ctx msg st).deviceNameCache = st.deviceNameCache := by
  unfold dispatchMessage
  rcases hr : captureMessageMetrics ctx msg st with ⟨st1, err⟩
  have h : st1.deviceNameCache = st.deviceNameCache := by
    have h2 := congrArg (fun p => p.1.deviceNameCache) hr
    simpa using h2.symm
  cases err <;> simp [h]

/-- Value form of the generic-counter step. -/
theorem genericCounters_eq (ctx : Ctx) (msg : Msg) (st : ExpState) :
    genericCounters ctx msg st
      = { st with
            messagesTotal := cinc st.messagesTotal
              (msgCode msg, msgVerb msg, msgCode msg, srcDevice msg, dstDevice msg,
                if getZoneForDevice st.zoneDevicesMap (srcDevice msg) ≠ "unknown" then
                  getZoneNameStr ctx.env st.zoneNameCache
                    (getZoneForDevice st.zoneDevicesMap (srcDevice msg))
                else "unknown"),
            messageTypesCounter := cinc st.messageTypesCounter
              (msgCode msg, getCodeName ctx.env msg.code, msgVerb msg),
            deviceCommunicationsCounter := cinc st.deviceCommunicationsCounter
              (srcDevice msg, dstDevice msg, msgVerb msg),
            messageTypes := cinc st.messageTypes (msgCode msg ++ "_" ++ msgVerb msg),
            deviceCommunications :=
              cinc st.deviceCommunications (srcDevice msg ++ "_" ++ dstDevice msg) } := rfl

@[simp] theorem cval_cinc_self {κ : Type} [DecidableEq κ] (l : List (κ × Nat)) (k : κ) :
    cval (cinc l k) k = cval l k + 1 := by
  simp [cinc, cval, alook_aset_self]

@[simp] theorem lastSeenUpdate_pres_msgErrF (ctx : Ctx) (msg : Msg) (st : ExpState) :
    (lastSeenUpdate ctx msg st).messageErrors = st.messageErrors := by
  obtain ⟨v, h⟩ := lastSeenUpdate_only ctx msg st
  rw [h]

@[simp] theorem genericCounters_pres_msgErrF (ctx : Ctx) (msg : Msg) (st : ExpState) :
    (genericCounters ctx msg st).messageErrors = st.messageErrors := by
  obtain ⟨a, b, c, d, e, h⟩ := genericCounters_only ctx msg st
  rw [h]

@[simp] theorem boilerTracking_pres_msgErrF (ctx : Ctx) (msg : Msg) (st : ExpState) :
    (boilerTracking ctx msg st).messageErrors = st.messageErrors := by
  obtain ⟨a, b, c, d, h⟩ := boilerTracking_only ctx msg st
  rw [h]

@[simp] theorem timestampUpdate_pres_msgErrF (ctx : Ctx) (st : ExpState) :
    (timestampUpdate ctx st).messageErrors = st.messageErrors := by
  obtain ⟨a, b, h⟩ := timestampUpdate_only ctx st
  rw [h]

@[simp] theorem ruleSize_pres_msgErrF (msg : Msg) (st : ExpState) :
    (ruleSize msg st).messageErrors = st.messageErrors := by
  obtain ⟨v, h⟩ := ruleSize_only msg st
  rw [h]

@[simp] theorem ruleZoneName_pres_msgErrF (ctx : Ctx) (msg : Msg) (st : ExpState) :
    (ruleZoneName ctx msg st).messageErrors = st.messageErrors := by
  obtain ⟨a, b, c, h⟩ := ruleZoneName_only ctx msg st
  rw [h]

@[simp] theorem ruleZoneDevices_pres_msgErrF (ctx : Ctx) (msg : Msg) (st : ExpState) :
    (ruleZoneDevices ctx msg st).messageErrors = st.messageErrors := by
  obtain ⟨v, h⟩ := ruleZoneDevices_only ctx msg st
  rw [h]

@[simp] theorem ruleTemperature_pres_msgErrF (ctx : Ctx) (msg : Msg) (st : ExpState) :
    (ruleTemperature ctx msg st).messageErrors = st.messageErrors := by
  obtain ⟨v, h⟩ := ruleTemperature_only ctx msg st
  rw [h]

@[simp] theorem ruleSetpoint_pres_msgErrF (ctx : Ctx) (msg : Msg) (st : ExpState) :
    (ruleSetpoint ctx msg st).messageErrors = st.messageErrors := by
  obtain ⟨v, h⟩ := ruleSetpoint_only ctx msg st
  rw [h]

@[simp] theorem ruleWindow_pres_msgErrF (ctx : Ctx) (msg : Msg) (st : ExpState) :
    (ruleWindow ctx msg st).messageErrors = st.messageErrors := by
  obtain ⟨v, h⟩ := ruleWindow_only ctx msg st
  rw [h]

@[simp] theorem ruleMode_pres_msgErrF (ctx : Ctx) (msg : Msg) (st : ExpState) :
    (ruleMode ctx msg st).messageErrors = st.messageErrors := by
  obtain ⟨v, h⟩ := ruleMode_only ctx msg st
  rw [h]

@[simp] theorem ruleHeatDemand_pres_msgErrF (ctx : Ctx) (msg : Msg) (st : ExpState) :
    (ruleHeatDemand ctx msg st).messageErrors = st.messageErrors := by
  obtain ⟨v, h⟩ := ruleHeatDemand_only ctx msg st
  rw [h]

@[simp] theorem ruleSync_pres_msgErrF (ctx : Ctx) (msg : Msg) (st : ExpState) :
    (ruleSync ctx msg st).messageErrors = st.messageErrors := by
  obtain ⟨a, b, h⟩ := ruleSync_only ctx msg st
  rw [h]

@[simp] theorem ruleFault_pres_msgErrF (ctx : Ctx) (msg : Msg) (st : ExpState) :
    (ruleFault ctx msg st).messageErrors = st.messageErrors := by
  obtain ⟨a, b, c, h⟩ := ruleFault_only ctx msg st
  rw [h]

@[simp] theorem ruleBoilerSetpoint_pres_msgErrF (ctx : Ctx) (msg : Msg) (st : ExpState) :
    (ruleBoilerSetpoint ctx msg st).messageErrors = st.messageErrors := by
  obtain ⟨v, h⟩ := ruleBoilerSetpoint_only ctx msg st
  rw [h]

@[simp] theorem ruleBoilerStatus_pres_msgErrF (ctx : Ctx) (msg : Msg) (st : ExpState) :
    (ruleBoilerStatus ctx msg st).messageErrors = st.messageErrors := by
  obtain ⟨a, b, c, d, h⟩ := ruleBoilerStatus_only ctx msg st
  rw [h]

@[simp] theorem ruleDhw_pres_msgErrF (ctx : Ctx) (msg : Msg) (st : ExpState) :
    ((ruleDhw ctx msg st).1).messageErrors = st.messageErrors := by
  obtain ⟨a, b, c, d, err, h⟩ := ruleDhw_only ctx msg st
  rw [h]

@[simp] theorem finalPhase_pres_msgErrF (ctx : Ctx) (msg : Msg) (st : ExpState) :
    (finalPhase ctx msg st).messageErrors = st.messageErrors := by
  obtain ⟨a, b, h⟩ := finalPhase_only ctx msg st
  rw [h]

@[simp] theorem timestampUpdate_pres_boilerGaugeF (ctx : Ctx) (st : ExpState) :
    (timestampUpdate ctx st).boilerLastSeen = st.boilerLastSeen ∧
    (timestampUpdate ctx st).boilerLastContacted = st.boilerLastContacted := by
  obtain ⟨a, b, h⟩ := timestampUpdate_only ctx st
  rw [h]; exact ⟨rfl, rfl⟩

@[simp] theorem ruleSize_pres_boilerGaugeF (msg : Msg) (st : ExpState) :
    (ruleSize msg st).boilerLastSeen = st.boilerLastSeen ∧
    (ruleSize msg st).boilerLastContacted = st.boilerLastContacted := by
  obtain ⟨v, h⟩ := ruleSize_only msg st
  rw [h]; exact ⟨rfl, rfl⟩

@[simp] theorem ruleZoneName_pres_boilerGaugeF (ctx : Ctx) (msg : Msg) (st : ExpState) :
    (ruleZoneName ctx msg st).boilerLastSeen = st.boilerLastSeen ∧
    (ruleZoneName ctx msg st).boilerLastContacted = st.boilerLastContacted := by
  obtain ⟨a, b, c, h⟩ := ruleZoneName_only ctx msg st
  rw [h]; exact ⟨rfl, rfl⟩

@[simp] theorem ruleZoneDevices_pres_boilerGaugeF (ctx : Ctx) (msg : Msg) (st : ExpState) :
    (ruleZoneDevices ctx msg st).boilerLastSeen = st.boilerLastSeen ∧
    (ruleZoneDevices ctx msg st).boilerLastContacted = st.boilerLastContacted := by
  obtain ⟨v, h⟩ := ruleZoneDevices_only ctx msg st
  rw [h]; exact ⟨rfl, rfl⟩

@[simp] theorem ruleTemperature_pres_boilerGaugeF (ctx : Ctx) (msg : Msg) (st : ExpState) :
    (ruleTemperature ctx msg st).boilerLastSeen = st.boilerLastSeen ∧
    (ruleTemperature ctx msg st).boilerLastContacted = st.boilerLastContacted := by
  obtain ⟨v, h⟩ := ruleTemperature_only ctx msg st
  rw [h]; exact ⟨rfl, rfl⟩

@[simp] theorem ruleSetpoint_pres_boilerGaugeF (ctx : Ctx) (msg : Msg) (st : ExpState) :
    (ruleSetpoint ctx msg st).boilerLastSeen = st.boilerLastSeen ∧
    (ruleSetpoint ctx msg st).boilerLastContacted = st.boilerLastContacted := by
  obtain ⟨v, h⟩ := ruleSetpoint_only ctx msg st
  rw [h]; exact ⟨rfl, rfl⟩

@[simp] theorem ruleWindow_pres_boilerGaugeF (ctx : Ctx) (msg : Msg) (st : ExpState) :
    (ruleWindow ctx msg st).boilerLastSeen = st.boilerLastSeen ∧
    (ruleWindow ctx msg st).boilerLastContacted = st.boilerLastContacted := by
  obtain ⟨v, h⟩ := ruleWindow_only ctx msg st
  rw [h]; exact ⟨rfl, rfl⟩

@[simp] theorem ruleMode_pres_boilerGaugeF (ctx : Ctx) (msg : Msg) (st : ExpState) :
    (ruleMode ctx msg st).boilerLastSeen = st.boilerLastSeen ∧
    (ruleMode ctx msg st).boilerLastContacted = st.boilerLastContacted := by
  obtain ⟨v, h⟩ := ruleMode_only ctx msg st
  rw [h]; exact ⟨rfl, rfl⟩

@[simp] theorem ruleHeatDemand_pres_boilerGaugeF (ctx : Ctx) (msg : Msg) (st : ExpState) :
    (ruleHeatDemand ctx msg st).boilerLastSeen = st.boilerLastSeen ∧
    (ruleHeatDemand ctx msg st).boilerLastContacted = st.boilerLastContacted := by
  obtain ⟨v, h⟩ := ruleHeatDemand_only ctx msg st
  rw [h]; exact ⟨rfl, rfl⟩

@[simp] theorem ruleSync_pres_boilerGaugeF (ctx : Ctx) (msg : Msg) (st : ExpState) :
    (ruleSync ctx msg st).boilerLastSeen = st.boilerLastSeen ∧
    (ruleSync ctx msg st).boilerLastContacted = st.boilerLastContacted := by
  obtain ⟨a, b, h⟩ := ruleSync_only ctx msg st
  rw [h]; exact ⟨rfl, rfl⟩

@[simp] theorem ruleFault_pres_boilerGaugeF (ctx : Ctx) (msg : Msg) (st : ExpState) :
    (ruleFault ctx msg st).boilerLastSeen = st.boilerLastSeen ∧
    (ruleFault ctx msg st).boilerLastContacted = st.boilerLastContacted := by
  obtain ⟨a, b, c, h⟩ := ruleFault_only ctx msg st
  rw [h]; exact ⟨rfl, rfl⟩

@[simp] theorem ruleBoilerSetpoint_pres_boilerGaugeF (ctx : Ctx) (msg : Msg) (st : ExpState) :
    (ruleBoilerSetpoint ctx msg st).boilerLastSeen = st.boilerLastSeen ∧
    (ruleBoilerSetpoint ctx msg st).boilerLastContacted = st.boilerLastContacted := by
  obtain ⟨v, h⟩ := ruleBoilerSetpoint_only ctx msg st
  rw [h]; exact ⟨rfl, rfl⟩

@[simp] theorem ruleBoilerStatus_pres_boilerGaugeF (ctx : Ctx) (msg : Msg) (st : ExpState) :
    (ruleBoilerStatus ctx msg st).boilerLastSeen = st.boilerLastSeen ∧
    (ruleBoilerStatus ctx msg st).boilerLastContacted = st.boilerLastContacted := by
  obtain ⟨a, b, c, d, h⟩ := ruleBoilerStatus_only ctx msg st
  rw [h]; exact ⟨rfl, rfl⟩

@[simp] theorem ruleDhw_pres_boilerGaugeF (ctx : Ctx) (msg : Msg) (st : ExpState) :
    ((ruleDhw ctx msg st).1).boilerLastSeen = st.boilerLastSeen ∧
    ((ruleDhw ctx msg st).1).boilerLastContacted = st.boilerLastContacted := by
  obtain ⟨a, b, c, d, err, h⟩ := ruleDhw_only ctx msg st
  rw [h]; exact ⟨rfl, rfl⟩

@[simp] theorem finalPhase_pres_boilerGaugeF (ctx : Ctx) (msg : Msg) (st : ExpState) :
    (finalPhase ctx msg st).boilerLastSeen = st.boilerLastSeen ∧
    (finalPhase ctx msg st).boilerLastContacted = st.boilerLastContacted := by
  obtain ⟨a, b, h⟩ := finalPhase_only ctx msg st
  rw [h]; exact ⟨rfl, rfl⟩

@[simp] theorem payloadPhase_pres_msgErrF (ctx : Ctx) (msg : Msg) (st : ExpState) :
    (payloadPhase ctx msg st).messageErrors = st.messageErrors := by
  unfold payloadPhase
  (repeat' split) <;> simp

@[simp] theorem payloadPhase_pres_boilerGaugeF (ctx : Ctx) (msg : Msg) (st : ExpState) :
    (payloadPhase ctx msg st).boilerLastSeen = st.boilerLastSeen ∧
    (payloadPhase ctx msg st).boilerLastContacted = st.boilerLastContacted := by
  unfold payloadPhase
  (repeat' split) <;> simp

/-! ## Persistence lemmas -/

/-- Serialization round-trip of one cache entry. -/
theorem decodeEntry_encodeEntry (e : CacheEntry) : decodeEntry? (encodeEntry e) = some e := rfl

/-- Serialization round-trip of a whole cache mapping. -/
theorem decodeEntries_encodeEntries (l : List (String × CacheEntry)) :
    decodeEntries (encodeEntries l) = l := by
  induction l with
  | nil => rfl
  | cons p rest ih =>
      simp [encodeEntries, decodeEntries, List.filterMap_cons, decodeEntry_encodeEntry] at *
      exact ih

/-! ## Claim C5: save/load round-trip -/

/-- C5: for every in-memory cache state, saving the cache and loading
from the written document reproduces the same logical mapping — in
particular the same name for every id. -/
theorem C5_cache_roundtrip (st : ExpState) (iso : String) :
    loadCache (saveCache iso st).disk = (st.zoneNameCache, st.deviceNameCache) := by
  simp [saveCache, loadCache, decodeEntries_encodeEntries]

/-! ## Claim C4: device-name cache write discipline -/

/-- Branch equation of `_update_device_name_cache` for a new id. -/
theorem updateDeviceNameCache_new (ctx : Ctx) (st : ExpState) (id n : String)
    (hid : id ≠ "") (hn : n ≠ "") (hnu : n ≠ "unknown")
    (hnew : alook st.deviceNameCache id = none) :
    updateDeviceNameCache ctx id n st
      = saveCache ctx.nowIso
          { st with deviceNameCache := aset st.deviceNameCache id ⟨n, ctx.now, ctx.now⟩ } := by
  simp [updateDeviceNameCache, hid, hn, hnu, hnew]

/-- Branch equation of `_update_device_name_cache` for an existing id
with an unchanged name: `last_seen` refresh, no disk write. -/
theorem updateDeviceNameCache_same (ctx : Ctx) (st : ExpState) (id n : String) (e : CacheEntry)
    (hid : id ≠ "") (hn : n ≠ "") (hnu : n ≠ "unknown")
    (hex : alook st.deviceNameCache id = some e) (hname : e.name = n) :
    updateDeviceNameCache ctx id n st
      = { st with
            deviceNameCache := aset st.deviceNameCache id { e with lastSeen := ctx.now } } := by
  simp [updateDeviceNameCache, hid, hn, hnu, hex, hname]

/-- Branch equation of `_update_device_name_cache` for an existing id
with a changed name: overwrite and persist. -/
theorem updateDeviceNameCache_diff (ctx : Ctx) (st : ExpState) (id n : String) (e : CacheEntry)
    (hid : id ≠ "") (hn : n ≠ "") (hnu : n ≠ "unknown")
    (hex : alook st.deviceNameCache id = some e) (hname : e.name ≠ n) :
    updateDeviceNameCache ctx id n st
      = saveCache ctx.nowIso
          { st with
              deviceNameCache :=
                aset st.deviceNameCache id { e with name := n, lastSeen := ctx.now } } := by
  simp [updateDeviceNameCache, hid, hn, hnu, hex, hname]

/-- C4: for a new device id and a non-empty, non-sentinel name, a first
`updateDevice` call writes to disk once; a repeat call with the same name
refreshes `last_seen` in memory only (no further disk write) and keeps
the name; a repeat call with a different name performs a second disk
write and the new name becomes the cached name. -/
theorem C4_updateDevice_write_discipline
    (ctx1 ctx2 : Ctx) (st : ExpState) (id n n' : String)
    (hid : id ≠ "") (hn : n ≠ "") (hnu : n ≠ "unknown")
    (hn' : n' ≠ "") (hnu' : n' ≠ "unknown") (hne : n' ≠ n)
    (hnew : alook st.deviceNameCache id = none) :
    (updateDeviceNameCache ctx1 id n st).diskWrites = st.diskWrites + 1 ∧
    (updateDeviceNameCache ctx2 id n (updateDeviceNameCache ctx1 id n st)).diskWrites
      = st.diskWrites + 1 ∧
    (alook (updateDeviceNameCache ctx2 id n
        (updateDeviceNameCache ctx1 id n st)).deviceNameCache id).map CacheEntry.name
      = some n ∧
    (updateDeviceNameCache ctx2 id n' (updateDeviceNameCache ctx1 id n st)).diskWrites
      = st.diskWrites + 2 ∧
    (alook (updateDeviceNameCache ctx2 id n'
        (updateDeviceNameCache ctx1 id n st)).deviceNameCache id).map CacheEntry.name
      = some n' := by
  have h1 := updateDeviceNameCache_new ctx1 st id n hid hn hnu hnew
  have hl1 : alook (updateDeviceNameCache ctx1 id n st).deviceNameCache id
      = some ⟨n, ctx1.now, ctx1.now⟩ := by
    rw [h1]; simp [saveCache, alook_aset_self]
  have hw1 : (updateDeviceNameCache ctx1 id n st).diskWrites = st.diskWrites + 1 := by
    rw [h1]; simp [saveCache]
  have h2 := updateDeviceNameCache_same ctx2 (updateDeviceNameCache ctx1 id n st) id n
      ⟨n, ctx1.now, ctx1.now⟩ hid hn hnu hl1 rfl
  have h3 := updateDeviceNameCache_diff ctx2 (updateDeviceNameCache ctx1 id n st) id n'
      ⟨n, ctx1.now, ctx1.now⟩ hid hn' hnu' hl1 (Ne.symm hne)
  refine ⟨hw1, ?_, ?_, ?_, ?_⟩
  · rw [h2]; exact hw1
  · rw [h2]; simp [alook_aset_self]
  · rw [h3]; simp [saveCache, hw1]
  · rw [h3]; simp [saveCache, alook_aset_self]

/-- Witness for C4 at a concrete input. -/
theorem C4_witness :
    (updateDeviceNameCache sampleCtx "01:123456" "Kitchen" (initialState 0)).diskWrites
      = (initialState 0).diskWrites + 1 ∧
    (updateDeviceNameCache sampleCtx2 "01:123456" "Kitchen"
        (updateDeviceNameCache sampleCtx "01:123456" "Kitchen" (initialState 0))).diskWrites
      = (initialState 0).diskWrites + 1 ∧
    (alook (updateDeviceNameCache sampleCtx2 "01:123456" "Kitchen"
        (updateDeviceNameCache sampleCtx "01:123456" "Kitchen"
          (initialState 0))).deviceNameCache "01:123456").map CacheEntry.name
      = some "Kitchen" ∧
    (updateDeviceNameCache sampleCtx2 "01:123456" "Lounge"
        (updateDeviceNameCache sampleCtx "01:123456" "Kitchen" (initialState 0))).diskWrites
      = (initialState 0).diskWrites + 2 ∧
    (alook (updateDeviceNameCache sampleCtx2 "01:123456" "Lounge"
        (updateDeviceNameCache sampleCtx "01:123456" "Kitchen"
          (initialState 0))).deviceNameCache "01:123456").map CacheEntry.name
      = some "Lounge" :=
  C4_updateDevice_write_discipline sampleCtx sampleCtx2 (initialState 0)
    "01:123456" "Kitchen" "Lounge"
    (by decide) (by decide) (by decide) (by decide) (by decide) (by decide) (by decide)

/-! ## Claim C9: the device-name cache is a frame of event dispatch -/

/-- C9: over any sequence of dispatched events, the in-memory device-name
cache is left exactly as it started — `_update_device_name_cache` is never
invoked from `_capture_message_metrics`, so device names are never
discovered from events. -/
theorem C9_device_cache_never_written (evs : List (Ctx × Msg)) (st : ExpState) :
    (evs.foldl (fun s e => dispatchMessage e.1 e.2 s) st).deviceNameCache
      = st.deviceNameCache := by
  induction evs generalizing st with
  | nil => rfl
  | cons e rest ih => simp [List.foldl_cons, ih]

/-! ## Claim C6: a non-numeric temperature field is recovered locally -/

/-- C6: for an event whose payload carries a `temperature` value that is
not convertible to a number, dispatch completes (the dispatcher of the
model is a total function: the conversion error is caught inside the
temperature rule), the device-temperature gauge is left exactly as it
was, and the three generic counters are still incremented at the event's
label tuples. -/
theorem C6_bad_temperature_recovered
    (ctx : Ctx) (msg : Msg) (st : ExpState) (f : List (String × PValue)) (v : PValue)
    (hp : msg.payload = some (.pDict f))
    (ht : alook f "temperature" = some v)
    (hconv : toFloat? v = none) :
    (dispatchMessage ctx msg st).deviceTemperature = st.deviceTemperature ∧
    cval (dispatchMessage ctx msg st).messagesTotal
        (msgCode msg, msgVerb msg, msgCode msg, srcDevice msg, dstDevice msg,
          if getZoneForDevice st.zoneDevicesMap (srcDevice msg) ≠ "unknown" then
            getZoneNameStr ctx.env st.zoneNameCache
              (getZoneForDevice st.zoneDevicesMap (srcDevice msg))
          else "unknown")
      = cval st.messagesTotal
          (msgCode msg, msgVerb msg, msgCode msg, srcDevice msg, dstDevice msg,
            if getZoneForDevice st.zoneDevicesMap (srcDevice msg) ≠ "unknown" then
              getZoneNameStr ctx.env st.zoneNameCache
                (getZoneForDevice st.zoneDevicesMap (srcDevice msg))
            else "unknown") + 1 ∧
    cval (dispatchMessage ctx msg st).messageTypesCounter
        (msgCode msg, getCodeName ctx.env msg.code, msgVerb msg)
      = cval st.messageTypesCounter
          (msgCode msg, getCodeName ctx.env msg.code, msgVerb msg) + 1 ∧
    cval (dispatchMessage ctx msg st).deviceCommunicationsCounter
        (srcDevice msg, dstDevice msg, msgVerb msg)
      = cval st.deviceCommunicationsCounter
          (srcDevice msg, dstDevice msg, msgVerb msg) + 1 := by
  have hTnoop : ∀ s : ExpState, ruleTemperature ctx msg s = s := by
    intro s
    simp [ruleTemperature, hp, ht, hconv]
  have hPPdt : ∀ s : ExpState,
      (payloadPhase ctx msg s).deviceTemperature = s.deviceTemperature := by
    intro s
    unfold payloadPhase
    (repeat' split) <;> simp [hTnoop]
  have hcapdt : (captureMessageMetrics ctx msg st).1.deviceTemperature
      = st.deviceTemperature := by
    unfold captureMessageMetrics
    rcases hd : ruleDhw ctx msg (payloadPhase ctx msg (timestampUpdate ctx (boilerTracking ctx msg
      (genericCounters ctx msg (lastSeenUpdate ctx msg st))))) with ⟨s2, err2⟩
    have h : s2.deviceTemperature = st.deviceTemperature := by
      have h2 := congrArg (fun p => p.1.deviceTemperature) hd
      simpa [hPPdt] using h2.symm
    cases err2 <;> simp [h]
  have hcapmt : (captureMessageMetrics ctx msg st).1.messagesTotal
      = cinc st.messagesTotal
          (msgCode msg, msgVerb msg, msgCode msg, srcDevice msg, dstDevice msg,
            if getZoneForDevice st.zoneDevicesMap (srcDevice msg) ≠ "unknown" then
              getZoneNameStr ctx.env st.zoneNameCache
                (getZoneForDevice st.zoneDevicesMap (srcDevice msg))
            else "unknown") := by
    unfold captureMessageMetrics
    rcases hd : ruleDhw ctx msg (payloadPhase ctx msg (timestampUpdate ctx (boilerTracking ctx msg
      (genericCounters ctx msg (lastSeenUpdate ctx msg st))))) with ⟨s2, err2⟩
    have h := congrArg (fun p => p.1.messagesTotal) hd
    rw [genericCounters_eq] at h
    simp at h
    cases err2 <;> simpa using h.symm
  have hcapmtc : (captureMessageMetrics ctx msg st).1.messageTypesCounter
      = cinc st.messageTypesCounter (msgCode msg, getCodeName ctx.env msg.code, msgVerb msg) := by
    unfold captureMessageMetrics
    rcases hd : ruleDhw ctx msg (payloadPhase ctx msg (timestampUpdate ctx (boilerTracking ctx msg
      (genericCounters ctx msg (lastSeenUpdate ctx msg st))))) with ⟨s2, err2⟩
    have h := congrArg (fun p => p.1.messageTypesCounter) hd
    rw [genericCounters_eq] at h
    simp at h
    cases err2 <;> simpa using h.symm
  have hcapdcc : (captureMessageMetrics ctx msg st).1.deviceCommunicationsCounter
      = cinc st.deviceCommunicationsCounter (srcDevice msg, dstDevice msg, msgVerb msg) := by
    unfold captureMessageMetrics
    rcases hd : ruleDhw ctx msg (payloadPhase ctx msg (timestampUpdate ctx (boilerTracking ctx msg
      (genericCounters ctx msg (lastSeenUpdate ctx msg st))))) with ⟨s2, err2⟩
    have h := congrArg (fun p => p.1.deviceCommunicationsCounter) hd
    rw [genericCounters_eq] at h
    simp at h
    cases err2 <;> simpa using h.symm
  unfold dispatchMessage
  rcases hr : captureMessageMetrics ctx msg st with ⟨st1, err⟩
  rw [hr] at hcapdt hcapmt hcapmtc hcapdcc
  cases err <;>
    refine ⟨?_, ?_, ?_, ?_⟩ <;>
      simp_all [cval_cinc_self]

/-! ## Claim C2: the DHW rule raises `NameError` for non-controller
sources (code bug) -/

/-- C2 (code bug): for an event whose kind name is a DHW code and whose
source id does not carry the controller prefix (in particular whenever
only the destination carries it), the DHW rule evaluates
`destination_device` — a name that is never defined in the source, the
variable holding the destination id is `dest_device` — raising
`NameError`, which the rule's `except (ValueError, TypeError, KeyError)`
does not catch.  The DHW gauges are not updated, the trailing
aggregate-system-info update never runs, and the top-level handler counts
one error labelled `NameError`. -/
theorem C2_dhw_name_error
    (ctx : Ctx) (msg : Msg) (st : ExpState)
    (hk : getCodeName ctx.env (some (msgCode msg)) ∈ dhwCodeNames)
    (hs : ¬ pyStartsWith (srcDevice msg) "01:") :
    (captureMessageMetrics ctx msg st).2 = some PyErr.nameError ∧
    (captureMessageMetrics ctx msg st).1.systemInfo = st.systemInfo ∧
    (captureMessageMetrics ctx msg st).1.dhwTemperature = st.dhwTemperature ∧
    (captureMessageMetrics ctx msg st).1.dhwSetpoint = st.dhwSetpoint ∧
    (captureMessageMetrics ctx msg st).1.dhwActive = st.dhwActive ∧
    (captureMessageMetrics ctx msg st).1.dhwMode = st.dhwMode ∧
    cval (dispatchMessage ctx msg st).messageErrors "NameError"
      = cval st.messageErrors "NameError" + 1 := by
  have hDW : ∀ s : ExpState, ruleDhw ctx msg s = (s, some PyErr.nameError) := by
    intro s
    simp [ruleDhw, hk, hs]
  have hcap : captureMessageMetrics ctx msg st
      = (payloadPhase ctx msg (timestampUpdate ctx (boilerTracking ctx msg
          (genericCounters ctx msg (lastSeenUpdate ctx msg st)))), some PyErr.nameError) := by
    unfold captureMessageMetrics
    rw [hDW]
  refine ⟨?_, ?_, ?_, ?_, ?_, ?_, ?_⟩
  · rw [hcap]
  · rw [hcap]; simp
  · rw [hcap]; simp
  · rw [hcap]; simp
  · rw [hcap]; simp
  · rw [hcap]; simp
  · unfold dispatchMessage
    rw [hcap]
    simp [cval_cinc_self, PyErr.typeName]

/-! ## Claim C3: the zone-name writeback is gated on the kind code -/

/-- After any `_update_zone_name_cache` call with valid arguments, the
cache holds the given name for the given index. -/
theorem updateZoneNameCache_holds_name (ctx : Ctx) (z n : String) (st : ExpState)
    (hz : z ≠ "") (hn : n ≠ "") (hnu : n ≠ "unknown") :
    (alook (updateZoneNameCache ctx z n st).zoneNameCache z).map CacheEntry.name = some n := by
  unfold updateZoneNameCache
  cases halk : alook st.zoneNameCache z with
  | none => simp [hz, hn, hnu, halk, saveCache, alook_aset_self]
  | some e =>
      by_cases he : e.name = n <;>
        simp [hz, hn, hnu, halk, he, saveCache, alook_aset_self]

/-- C3 counterexample: an event whose structured payload carries both
`name` and a zone index, with a kind code that is not the zone-name code,
leaves the zone-name cache untouched — the extraction rule is gated on the
kind code 0004 / `zone_name`, not on field presence alone. -/
theorem C3_counterexample :
    (dispatchMessage sampleCtx
        { code := some "3150", verb := some "I", src := some "01:222222",
          dst := some "18:000730",
          payload := some (.pDict
            [("zone_idx", .atom (.pStr "01")), ("name", .atom (.pStr "Office"))]) }
        (initialState 0)).zoneNameCache = [] := by
  rfl

/-- C3 (amended): the zone-name writeback rule is triggered by the kind
code 0004 / `zone_name` together with the presence of `zone_idx` and
`name` in the payload; for such events with non-empty values and a
non-sentinel name, after dispatch the cache holds that name for that zone
index. -/
theorem C3_zone_name_capture_gated
    (ctx : Ctx) (msg : Msg) (st : ExpState) (f : List (String × PValue)) (z n : String)
    (hp : msg.payload = some (.pDict f))
    (hcode : msgCode msg = "0004" ∨ msgCode msg = "zone_name")
    (hz : alook f "zone_idx" = some (.atom (.pStr z)))
    (hn : alook f "name" = some (.atom (.pStr n)))
    (hz' : z ≠ "") (hn' : n ≠ "") (hnu : n ≠ "unknown") :
    (alook (dispatchMessage ctx msg st).zoneNameCache z).map CacheEntry.name = some n := by
  have hfne : f ≠ [] := by
    intro hcontra
    rw [hcontra] at hz
    simp [alook] at hz
  have hZN : ∀ s : ExpState, ruleZoneName ctx msg s = updateZoneNameCache ctx z n s := by
    intro s
    simp [ruleZoneName, hp, hcode, hz, hn, PValue.truthy, hz', hn']
  have hPP : ∀ s : ExpState,
      (alook (payloadPhase ctx msg s).zoneNameCache z).map CacheEntry.name = some n := by
    intro s
    unfold payloadPhase
    simp only [hp]
    rw [if_pos (by simp [Payload.truthy, hfne])]
    simp [hZN, updateZoneNameCache_holds_name ctx z n _ hz' hn' hnu]
  have hcap : (alook (captureMessageMetrics ctx msg st).1.zoneNameCache z).map CacheEntry.name
      = some n := by
    unfold captureMessageMetrics
    rcases hd : ruleDhw ctx msg (payloadPhase ctx msg (timestampUpdate ctx (boilerTracking ctx msg
      (genericCounters ctx msg (lastSeenUpdate ctx msg st))))) with ⟨s2, err2⟩
    have h := congrArg (fun p => p.1.zoneNameCache) hd
    simp only [ruleDhw_pres_caches] at h
    have h2 : (alook s2.zoneNameCache z).map CacheEntry.name = some n := by
      rw [← h]
      exact hPP _
    cases err2 <;> simp [h2]
  unfold dispatchMessage
  rcases hr : captureMessageMetrics ctx msg st with ⟨st1, err⟩
  rw [hr] at hcap
  cases err <;> simpa using hcap

/-! ## Claim C7: boiler classification by id prefix -/

/-- Effect of the boiler-tracking step for a boiler-class source. -/
theorem boilerTracking_src_effect (ctx : Ctx) (msg : Msg) (st : ExpState)
    (h : isBoiler (srcDevice msg) = true) :
    (boilerTracking ctx msg st).boilerMessagesReceived
      = cinc st.boilerMessagesReceived
          (srcDevice msg, getDeviceName ctx.env st.deviceNameCache (srcDevice msg),
            msgCode msg, getCodeName ctx.env (some (msgCode msg))) ∧
    (boilerTracking ctx msg st).boilerLastSeen
      = gset st.boilerLastSeen
          (srcDevice msg, getDeviceName ctx.env st.deviceNameCache (srcDevice msg)) ctx.now := by
  unfold boilerTracking
  dsimp only
  rw [if_pos h]
  split <;> exact ⟨rfl, rfl⟩

/-- Effect of the boiler-tracking step for a boiler-class destination. -/
theorem boilerTracking_dst_effect (ctx : Ctx) (msg : Msg) (st : ExpState)
    (h : isBoiler (dstDevice msg) = true) :
    (boilerTracking ctx msg st).boilerMessagesSent
      = cinc st.boilerMessagesSent
          (dstDevice msg, getDeviceName ctx.env st.deviceNameCache (dstDevice msg),
            msgCode msg, getCodeName ctx.env (some (msgCode msg))) ∧
    (boilerTracking ctx msg st).boilerLastContacted
      = gset st.boilerLastContacted
          (dstDevice msg, getDeviceName ctx.env st.deviceNameCache (dstDevice msg)) ctx.now := by
  unfold boilerTracking
  dsimp only
  rw [if_pos h]
  split <;> exact ⟨rfl, rfl⟩

/-- The boiler-tracking step never touches series of a non-boiler id. -/
theorem boilerTracking_nonboiler (ctx : Ctx) (msg : Msg) (st : ExpState)
    (id a b c : String) (hnb : ¬ isBoiler id = true) :
    alook (boilerTracking ctx msg st).boilerMessagesSent (id, a, b, c)
      = alook st.boilerMessagesSent (id, a, b, c) ∧
    alook (boilerTracking ctx msg st).boilerMessagesReceived (id, a, b, c)
      = alook st.boilerMessagesReceived (id, a, b, c) := by
  have hne : ∀ s : String, isBoiler s = true → ∀ x y z : String,
      (id, a, b, c) ≠ (s, x, y, z) := by
    intro s hs x y z hk
    have h1 : id = s := congrArg Prod.fst hk
    rw [h1] at hnb
    exact hnb hs
  unfold boilerTracking
  dsimp only
  constructor
  · split
    next hdst =>
      split
      next hsrc => exact alook_aset_ne _ _ _ _ (hne _ hdst _ _ _)
      next hsrc => exact alook_aset_ne _ _ _ _ (hne _ hdst _ _ _)
    next hdst =>
      split <;> rfl
  · split
    next hdst =>
      split
      next hsrc => exact alook_aset_ne _ _ _ _ (hne _ hsrc _ _ _)
      next hsrc => rfl
    next hdst =>
      split
      next hsrc => exact alook_aset_ne _ _ _ _ (hne _ hsrc _ _ _)
      next hsrc => rfl

/-- C7: an event from a boiler-class source updates the boiler received
counter and last-seen gauge; one to a boiler-class destination updates the
boiler sent counter and last-contacted gauge; and no boiler sent/received
series keyed by a non-boiler id is ever changed by dispatch, regardless of
the event's payload. -/
theorem C7_boiler_classification
    (ctx : Ctx) (msg : Msg) (st : ExpState) (id a b c : String)
    (hnb : ¬ isBoiler id = true) :
    (isBoiler (srcDevice msg) = true →
      cval (dispatchMessage ctx msg st).boilerMessagesReceived
          (srcDevice msg, getDeviceName ctx.env st.deviceNameCache (srcDevice msg),
            msgCode msg, getCodeName ctx.env (some (msgCode msg)))
        = cval st.boilerMessagesReceived
            (srcDevice msg, getDeviceName ctx.env st.deviceNameCache (srcDevice msg),
              msgCode msg, getCodeName ctx.env (some (msgCode msg))) + 1 ∧
      alook (dispatchMessage ctx msg st).boilerLastSeen
          (srcDevice msg, getDeviceName ctx.env st.deviceNameCache (srcDevice msg))
        = some ctx.now) ∧
    (isBoiler (dstDevice msg) = true →
      cval (dispatchMessage ctx msg st).boilerMessagesSent
          (dstDevice msg, getDeviceName ctx.env st.deviceNameCache (dstDevice msg),
            msgCode msg, getCodeName ctx.env (some (msgCode msg)))
        = cval st.boilerMessagesSent
            (dstDevice msg, getDeviceName ctx.env st.deviceNameCache (dstDevice msg),
              msgCode msg, getCodeName ctx.env (some (msgCode msg))) + 1 ∧
      alook (dispatchMessage ctx msg st).boilerLastContacted
          (dstDevice msg, getDeviceName ctx.env st.deviceNameCache (dstDevice msg))
        = some ctx.now) ∧
    alook (dispatchMessage ctx msg st).boilerMessagesSent (id, a, b, c)
      = alook st.boilerMessagesSent (id, a, b, c) ∧
    alook (dispatchMessage ctx msg st).boilerMessagesReceived (id, a, b, c)
      = alook st.boilerMessagesReceived (id, a, b, c) := by
  have hBT : ∀ s : ExpState,
      (boilerTracking ctx msg (genericCounters ctx msg (lastSeenUpdate ctx msg s))).deviceNameCache
        = s.deviceNameCache := by
    intro s; simp
  have hcap : ∀ g :
      ExpState → List ((String × String × String × String) × Nat) ×
        List ((String × String) × Rat) ×
        List ((String × String × String × String) × Nat) ×
        List ((String × String) × Rat),
      (g = fun s => (s.boilerMessagesSent, s.boilerLastSeen,
        s.boilerMessagesReceived, s.boilerLastContacted)) →
      g (captureMessageMetrics ctx msg st).1
        = g (boilerTracking ctx msg (genericCounters ctx msg (lastSeenUpdate ctx msg st))) := by
    intro g hg
    subst hg
    unfold captureMessageMetrics
    rcases hd : ruleDhw ctx msg (payloadPhase ctx msg (timestampUpdate ctx (boilerTracking ctx msg
      (genericCounters ctx msg (lastSeenUpdate ctx msg st))))) with ⟨s2, err2⟩
    have h1 := congrArg (fun p => p.1.boilerMessagesSent) hd
    have h2 := congrArg (fun p => p.1.boilerLastSeen) hd
    have h3 := congrArg (fun p => p.1.boilerMessagesReceived) hd
    have h4 := congrArg (fun p => p.1.boilerLastContacted) hd
    simp at h1 h2 h3 h4
    cases err2 <;> simp [h1.symm, h2.symm, h3.symm, h4.symm]
  have hc := hcap _ rfl
  have hc1 := congrArg (fun t => t.1) hc
  have hc2 := congrArg (fun t => t.2.1) hc
  have hc3 := congrArg (fun t => t.2.2.1) hc
  have hc4 := congrArg (fun t => t.2.2.2) hc
  simp only at hc1 hc2 hc3 hc4
  unfold dispatchMessage
  rcases hr : captureMessageMetrics ctx msg st with ⟨st1, err⟩
  rw [hr] at hc1 hc2 hc3 hc4
  simp only at hc1 hc2 hc3 hc4
  refine ⟨?_, ?_, ?_, ?_⟩
  · intro hsrc
    have he := boilerTracking_src_effect ctx msg
      (genericCounters ctx msg (lastSeenUpdate ctx msg st)) hsrc
    constructor
    · cases err <;>
        simp_all [cval_cinc_self]
    · cases err <;>
        simp_all [gset, alook_aset_self]
  · intro hdst
    have he := boilerTracking_dst_effect ctx msg
      (genericCounters ctx msg (lastSeenUpdate ctx msg st)) hdst
    constructor
    · cases err <;>
        simp_all [cval_cinc_self]
    · cases err <;>
        simp_all [gset, alook_aset_self]
  · have hn := boilerTracking_nonboiler ctx msg
      (genericCounters ctx msg (lastSeenUpdate ctx msg st)) id a b c hnb
    cases err <;> simp_all
  · have hn := boilerTracking_nonboiler ctx msg
      (genericCounters ctx msg (lastSeenUpdate ctx msg st)) id a b c hnb
    cases err <;> simp_all

/-! ## Claim C8: zone-key selection for setpoint and heat demand -/

/-- Setpoint half of C8: with `zone_idx` absent the setpoint series is
keyed by the reserved system-wide index. -/
theorem setpoint_default_zone_key
    (ctx : Ctx) (msg : Msg) (st : ExpState) (f : List (String × PValue)) (v : PValue) (q : Rat)
    (hp : msg.payload = some (.pDict f))
    (hsp : alook f "setpoint" = some v) (hc : toFloat? v = some q)
    (hnoz : alook f "zone_idx" = none) :
    alook (dispatchMessage ctx msg st).deviceSetpoint
        (srcDevice msg, getDeviceName ctx.env st.deviceNameCache (srcDevice msg),
          .atom (.pStr "00"), getZoneNameStr ctx.env st.zoneNameCache "00")
      = some q := by
  have hfne : f ≠ [] := by
    intro h
    rw [h] at hsp
    simp [alook] at hsp
  have hZN : ∀ s : ExpState, ruleZoneName ctx msg s = s := by
    intro s
    simp [ruleZoneName, hp, hnoz]
  have hSP : ∀ s : ExpState, ruleSetpoint ctx msg s
      = { s with
            deviceSetpoint := gset s.deviceSetpoint
              (srcDevice msg, getDeviceName ctx.env s.deviceNameCache (srcDevice msg),
                .atom (.pStr "00"), getZoneNameStr ctx.env s.zoneNameCache "00") q } := by
    intro s
    simp [ruleSetpoint, hp, hsp, hc, hnoz, getZoneNameP]
  have hPP : ∀ s : ExpState,
      alook (payloadPhase ctx msg s).deviceSetpoint
          (srcDevice msg, getDeviceName ctx.env s.deviceNameCache (srcDevice msg),
            .atom (.pStr "00"), getZoneNameStr ctx.env s.zoneNameCache "00")
        = some q := by
    intro s
    unfold payloadPhase
    simp only [hp]
    rw [if_pos (by simp [Payload.truthy, hfne])]
    simp [hZN, hSP, gset, alook_aset_self]
  have hcap : alook (captureMessageMetrics ctx msg st).1.deviceSetpoint
      (srcDevice msg, getDeviceName ctx.env st.deviceNameCache (srcDevice msg),
        .atom (.pStr "00"), getZoneNameStr ctx.env st.zoneNameCache "00") = some q := by
    unfold captureMessageMetrics
    rcases hd : ruleDhw ctx msg (payloadPhase ctx msg (timestampUpdate ctx (boilerTracking ctx msg
      (genericCounters ctx msg (lastSeenUpdate ctx msg st))))) with ⟨s2, err2⟩
    have h := congrArg (fun p => p.1.deviceSetpoint) hd
    simp only [ruleDhw_pres_deviceSetpointF] at h
    have h3 := hPP (timestampUpdate ctx (boilerTracking ctx msg
      (genericCounters ctx msg (lastSeenUpdate ctx msg st))))
    simp only [timestampUpdate_pres_caches, boilerTracking_pres_caches,
      genericCounters_pres_caches, lastSeenUpdate_pres_caches] at h3
    rw [h] at h3
    cases err2 <;> simpa using h3
  unfold dispatchMessage
  rcases hr : captureMessageMetrics ctx msg st with ⟨st1, err⟩
  rw [hr] at hcap
  cases err <;> simpa using hcap

/-- Heat-demand half of C8: the zone key prefers `zone_idx`, then
`domain_id`, then the reserved system-wide index. -/
theorem heat_demand_zone_key
    (ctx : Ctx) (msg : Msg) (st : ExpState) (f : List (String × PValue)) (v : PValue) (q : Rat)
    (hp : msg.payload = some (.pDict f))
    (hhd : alook f "heat_demand" = some v) (hc : toFloat? v = some q)
    (hname : alook f "name" = none) :
    alook (dispatchMessage ctx msg st).heatDemand
        (srcDevice msg, getDeviceName ctx.env st.deviceNameCache (srcDevice msg),
          (alook f "zone_idx").getD ((alook f "domain_id").getD (.atom (.pStr "00"))),
          getZoneNameP ctx.env st.zoneNameCache
            ((alook f "zone_idx").getD ((alook f "domain_id").getD (.atom (.pStr "00")))))
      = some q := by
  have hfne : f ≠ [] := by
    intro h
    rw [h] at hhd
    simp [alook] at hhd
  have hZN : ∀ s : ExpState, ruleZoneName ctx msg s = s := by
    intro s
    simp [ruleZoneName, hp, hname]
  have hHD : ∀ s : ExpState, ruleHeatDemand ctx msg s
      = { s with
            heatDemand := gset s.heatDemand
              (srcDevice msg, getDeviceName ctx.env s.deviceNameCache (srcDevice msg),
                (alook f "zone_idx").getD ((alook f "domain_id").getD (.atom (.pStr "00"))),
                getZoneNameP ctx.env s.zoneNameCache
                  ((alook f "zone_idx").getD ((alook f "domain_id").getD (.atom (.pStr "00")))))
              q } := by
    intro s
    simp [ruleHeatDemand, hp, hhd, hc]
  have hPP : ∀ s : ExpState,
      alook (payloadPhase ctx msg s).heatDemand
          (srcDevice msg, getDeviceName ctx.env s.deviceNameCache (srcDevice msg),
            (alook f "zone_idx").getD ((alook f "domain_id").getD (.atom (.pStr "00"))),
            getZoneNameP ctx.env s.zoneNameCache
              ((alook f "zone_idx").getD ((alook f "domain_id").getD (.atom (.pStr "00")))))
        = some q := by
    intro s
    unfold payloadPhase
    simp only [hp]
    rw [if_pos (by simp [Payload.truthy, hfne])]
    simp [hZN, hHD, gset, alook_aset_self]
  have hcap : alook (captureMessageMetrics ctx msg st).1.heatDemand
      (srcDevice msg, getDeviceName ctx.env st.deviceNameCache (srcDevice msg),
        (alook f "zone_idx").getD ((alook f "domain_id").getD (.atom (.pStr "00"))),
        getZoneNameP ctx.env st.zoneNameCache
          ((alook f "zone_idx").getD ((alook f "domain_id").getD (.atom (.pStr "00")))))
      = some q := by
    unfold captureMessageMetrics
    rcases hd : ruleDhw ctx msg (payloadPhase ctx msg (timestampUpdate ctx (boilerTracking ctx msg
      (genericCounters ctx msg (lastSeenUpdate ctx msg st))))) with ⟨s2, err2⟩
    have h := congrArg (fun p => p.1.heatDemand) hd
    simp only [ruleDhw_pres_heatDemandF] at h
    have h3 := hPP (timestampUpdate ctx (boilerTracking ctx msg
      (genericCounters ctx msg (lastSeenUpdate ctx msg st))))
    simp only [timestampUpdate_pres_caches, boilerTracking_pres_caches,
      genericCounters_pres_caches, lastSeenUpdate_pres_caches] at h3
    rw [h] at h3
    cases err2 <;> simpa using h3
  unfold dispatchMessage
  rcases hr : captureMessageMetrics ctx msg st with ⟨st1, err⟩
  rw [hr] at hcap
  cases err <;> simpa using hcap

/-- C8: with `setpoint` present and `zone_idx` absent, the setpoint gauge
series is keyed by the reserved system-wide index 00; with `heat_demand`
present, the zone key is the payload's `zone_idx` when present, else its
`domain_id` when present, else 00. -/
theorem C8_zone_key_selection :
    (∀ (ctx : Ctx) (msg : Msg) (st : ExpState) (f : List (String × PValue))
        (v : PValue) (q : Rat),
      msg.payload = some (.pDict f) →
      alook f "setpoint" = some v → toFloat? v = some q →
      alook f "zone_idx" = none →
      alook (dispatchMessage ctx msg st).deviceSetpoint
          (srcDevice msg, getDeviceName ctx.env st.deviceNameCache (srcDevice msg),
            .atom (.pStr "00"), getZoneNameStr ctx.env st.zoneNameCache "00")
        = some q) ∧
    (∀ (ctx : Ctx) (msg : Msg) (st : ExpState) (f : List (String × PValue))
        (v : PValue) (q : Rat),
      msg.payload = some (.pDict f) →
      alook f "heat_demand" = some v → toFloat? v = some q →
      alook f "name" = none →
      alook (dispatchMessage ctx msg st).heatDemand
          (srcDevice msg, getDeviceName ctx.env st.deviceNameCache (srcDevice msg),
            (alook f "zone_idx").getD ((alook f "domain_id").getD (.atom (.pStr "00"))),
            getZoneNameP ctx.env st.zoneNameCache
              ((alook f "zone_idx").getD ((alook f "domain_id").getD (.atom (.pStr "00")))))
        = some q) :=
  ⟨fun ctx msg st f v q hp hsp hc hnoz =>
      setpoint_default_zone_key ctx msg st f v q hp hsp hc hnoz,
   fun ctx msg st f v q hp hhd hc hname =>
      heat_demand_zone_key ctx msg st f v q hp hhd hc hname⟩

/-! ## Zone-mode list lemmas for C1 and C10 -/

@[simp] theorem pyStr_atom_str (s : String) : (PValue.atom (Prim.pStr s)).pyStr = s := rfl

/-- Effect of the clear loop on a series inside the label combination. -/
theorem alook_foldl_clear (ms : List String)
    (g : List ((String × String × PValue × String × String) × Rat))
    (a b : String) (c : PValue) (d : String) (m' : String) :
    alook (ms.foldl (fun g m => gset g (a, b, c, d, m) 0) g) (a, b, c, d, m')
      = if m' ∈ ms then some 0 else alook g (a, b, c, d, m') := by
  induction ms generalizing g with
  | nil => simp
  | cons m rest ih =>
    simp only [List.foldl_cons]
    rw [ih]
    by_cases hm : m' ∈ rest
    · simp [hm]
    · by_cases hm' : m' = m
      · subst hm'
        simp [hm, gset, alook_aset_self]
      · have hne : (a, b, c, d, m') ≠ (a, b, c, d, m) := by
          intro hk
          exact hm' (congrArg (fun t => t.2.2.2.2) hk)
        simp [hm, hm', gset, alook_aset_ne _ _ _ _ hne]

/-- The clear loop leaves series with an out-of-list mode untouched. -/
theorem alook_foldl_clear_notmem (ms : List String)
    (g : List ((String × String × PValue × String × String) × Rat))
    (a b : String) (c : PValue) (d : String)
    (K : String × String × PValue × String × String)
    (hK : K.2.2.2.2 ∉ ms) :
    alook (ms.foldl (fun g m => gset g (a, b, c, d, m) 0) g) K = alook g K := by
  induction ms generalizing g with
  | nil => rfl
  | cons m rest ih =>
    simp only [List.foldl_cons]
    rw [ih _ (fun h => hK (List.mem_cons_of_mem _ h))]
    refine alook_aset_ne _ _ _ _ ?_
    intro hk
    apply hK
    have h5 : K.2.2.2.2 = m := congrArg (fun t => t.2.2.2.2) hk
    rw [h5]
    exact List.mem_cons_self _ _

/-- A series at 1 whose mode is outside the fixed list survives one
clear-then-set update. -/
theorem alook_gset_clear_one (ms : List String)
    (g : List ((String × String × PValue × String × String) × Rat))
    (a b : String) (c : PValue) (d : String) (m1 : String)
    (K : String × String × PValue × String × String)
    (hK : K.2.2.2.2 ∉ ms) (h1 : alook g K = some 1) :
    alook (gset (ms.foldl (fun g m => gset g (a, b, c, d, m) 0) g) (a, b, c, d, m1) 1) K
      = some 1 := by
  by_cases hKK : K = (a, b, c, d, m1)
  · rw [hKK]
    exact alook_aset_self _ _ _
  · rw [gset, alook_aset_ne _ _ _ _ hKK, alook_foldl_clear_notmem ms g a b c d K hK]
    exact h1

/-- Value form of the zone-mode rule. -/
theorem ruleMode_eq (ctx : Ctx) (msg : Msg) (s : ExpState)
    (f : List (String × PValue)) (v : PValue)
    (hp : msg.payload = some (.pDict f)) (hm : alook f "mode" = some v) :
    ruleMode ctx msg s
      = { s with
            zoneMode := gset
              (possibleModes.foldl
                (fun g m => gset g (srcDevice msg,
                  getDeviceName ctx.env s.deviceNameCache (srcDevice msg),
                  (alook f "zone_idx").getD (.atom (.pStr "00")),
                  getZoneNameP ctx.env s.zoneNameCache
                    ((alook f "zone_idx").getD (.atom (.pStr "00"))), m) 0)
                s.zoneMode)
              (srcDevice msg,
                getDeviceName ctx.env s.deviceNameCache (srcDevice msg),
                (alook f "zone_idx").getD (.atom (.pStr "00")),
                getZoneNameP ctx.env s.zoneNameCache
                  ((alook f "zone_idx").getD (.atom (.pStr "00"))),
                v.pyStr) 1 } := by
  simp [ruleMode, hp, hm]

/-- One dispatched mode event (payload without a `name` field): the full
effect on the zone-mode gauge, and cache preservation. -/
theorem dispatchMessage_mode_event
    (ctx : Ctx) (msg : Msg) (s : ExpState) (f : List (String × PValue)) (v : PValue)
    (hp : msg.payload = some (.pDict f))
    (hm : alook f "mode" = some v)
    (hn : alook f "name" = none) :
    (dispatchMessage ctx msg s).zoneMode
      = gset
          (possibleModes.foldl
            (fun g m => gset g (srcDevice msg,
              getDeviceName ctx.env s.deviceNameCache (srcDevice msg),
              (alook f "zone_idx").getD (.atom (.pStr "00")),
              getZoneNameP ctx.env s.zoneNameCache
                ((alook f "zone_idx").getD (.atom (.pStr "00"))), m) 0)
            s.zoneMode)
          (srcDevice msg,
            getDeviceName ctx.env s.deviceNameCache (srcDevice msg),
            (alook f "zone_idx").getD (.atom (.pStr "00")),
            getZoneNameP ctx.env s.zoneNameCache
              ((alook f "zone_idx").getD (.atom (.pStr "00"))),
            v.pyStr) 1 ∧
    (dispatchMessage ctx msg s).zoneNameCache = s.zoneNameCache ∧
    (dispatchMessage ctx msg s).deviceNameCache = s.deviceNameCache := by
  have hfne : f ≠ [] := by
    intro h
    rw [h] at hm
    simp [alook] at hm
  have hZN : ∀ t : ExpState, ruleZoneName ctx msg t = t := by
    intro t
    simp [ruleZoneName, hp, hn]
  have hPPzm : ∀ t : ExpState, (payloadPhase ctx msg t).zoneMode
      = gset
          (possibleModes.foldl
            (fun g m => gset g (srcDevice msg,
              getDeviceName ctx.env t.deviceNameCache (srcDevice msg),
              (alook f "zone_idx").getD (.atom (.pStr "00")),
              getZoneNameP ctx.env t.zoneNameCache
                ((alook f "zone_idx").getD (.atom (.pStr "00"))), m) 0)
            t.zoneMode)
          (srcDevice msg,
            getDeviceName ctx.env t.deviceNameCache (srcDevice msg),
            (alook f "zone_idx").getD (.atom (.pStr "00")),
            getZoneNameP ctx.env t.zoneNameCache
              ((alook f "zone_idx").getD (.atom (.pStr "00"))),
            v.pyStr) 1 := by
    intro t
    unfold payloadPhase
    simp only [hp]
    rw [if_pos (by simp [Payload.truthy, hfne])]
    simp [hZN, ruleMode_eq ctx msg _ f v hp hm]
  have hPPznc : ∀ t : ExpState, (payloadPhase ctx msg t).zoneNameCache = t.zoneNameCache := by
    intro t
    unfold payloadPhase
    (repeat' split) <;> simp [hZN]
  have hcapzm : (captureMessageMetrics ctx msg s).1.zoneMode
      = gset
          (possibleModes.foldl
            (fun g m => gset g (srcDevice msg,
              getDeviceName ctx.env s.deviceNameCache (srcDevice msg),
              (alook f "zone_idx").getD (.atom (.pStr "00")),
              getZoneNameP ctx.env s.zoneNameCache
                ((alook f "zone_idx").getD (.atom (.pStr "00"))), m) 0)
            s.zoneMode)
          (srcDevice msg,
            getDeviceName ctx.env s.deviceNameCache (srcDevice msg),
            (alook f "zone_idx").getD (.atom (.pStr "00")),
            getZoneNameP ctx.env s.zoneNameCache
              ((alook f "zone_idx").getD (.atom (.pStr "00"))),
            v.pyStr) 1 := by
    unfold captureMessageMetrics
    rcases hd : ruleDhw ctx msg (payloadPhase ctx msg (timestampUpdate ctx (boilerTracking ctx msg
      (genericCounters ctx msg (lastSeenUpdate ctx msg s))))) with ⟨s2, err2⟩
    have h := congrArg (fun p => p.1.zoneMode) hd
    simp only [ruleDhw_pres_zoneModeF] at h
    rw [hPPzm] at h
    simp at h
    cases err2 <;> simpa using h.symm
  have hcapznc : (captureMessageMetrics ctx msg s).1.zoneNameCache = s.zoneNameCache := by
    unfold captureMessageMetrics
    rcases hd : ruleDhw ctx msg (payloadPhase ctx msg (timestampUpdate ctx (boilerTracking ctx msg
      (genericCounters ctx msg (lastSeenUpdate ctx msg s))))) with ⟨s2, err2⟩
    have h := congrArg (fun p => p.1.zoneNameCache) hd
    simp only [ruleDhw_pres_caches] at h
    rw [hPPznc] at h
    simp at h
    cases err2 <;> simpa using h.symm
  unfold dispatchMessage
  rcases hr : captureMessageMetrics ctx msg s with ⟨st1, err⟩
  rw [hr] at hcapzm hcapznc
  have hdnc := dispatchMessage_pres_dnc ctx msg s
  unfold dispatchMessage at hdnc
  rw [hr] at hdnc
  cases err <;> exact ⟨by simpa using hcapzm, by simpa using hcapznc, by simpa using hdnc⟩

/-- Gauge-level restatement of `alook_aset_self`. -/
theorem alook_gset_self {κ : Type} [DecidableEq κ] (l : List (κ × Rat)) (k : κ) (v : Rat) :
    alook (gset l k v) k = some v := alook_aset_self l k v

/-- Gauge-level restatement of `alook_aset_ne`. -/
theorem alook_gset_ne {κ : Type} [DecidableEq κ] (l : List (κ × Rat)) (k k' : κ) (v : Rat)
    (h : k' ≠ k) : alook (gset l k v) k' = alook l k' := alook_aset_ne l k k' v h

/-! ## Claim C1: mode series are mutually exclusive for in-list modes -/

/-- C1: processing two zone-mode events for the same (device, zone,
zone-name) label combination, with modes drawn from the fixed enumerated
list, leaves the first mode's series at 0 and the second at 1 — and after
each event no two mode series of that combination read 1 (starting from a
gauge with no series at 1). -/
theorem C1_mode_mutual_exclusion
    (ctx1 ctx2 : Ctx) (st0 : ExpState) (msg1 msg2 : Msg)
    (f1 f2 : List (String × PValue)) (src : String) (z : PValue) (m1 m2 : String)
    (henv : ctx2.env = ctx1.env)
    (hs1 : msg1.src = some src) (hs2 : msg2.src = some src)
    (hp1 : msg1.payload = some (.pDict f1)) (hp2 : msg2.payload = some (.pDict f2))
    (hm1 : alook f1 "mode" = some (.atom (.pStr m1)))
    (hm2 : alook f2 "mode" = some (.atom (.pStr m2)))
    (hz1 : alook f1 "zone_idx" = some z) (hz2 : alook f2 "zone_idx" = some z)
    (hn1 : alook f1 "name" = none) (hn2 : alook f2 "name" = none)
    (hin1 : m1 ∈ possibleModes) (hin2 : m2 ∈ possibleModes) (hne : m1 ≠ m2)
    (hfresh : ∀ q ∈ st0.zoneMode, q.2 ≠ 1) :
    (alook (dispatchMessage ctx1 msg1 st0).zoneMode
        (src, getDeviceName ctx1.env st0.deviceNameCache src, z,
          getZoneNameP ctx1.env st0.zoneNameCache z, m1) = some 1 ∧
      ∀ m, m ≠ m1 →
        alook (dispatchMessage ctx1 msg1 st0).zoneMode
          (src, getDeviceName ctx1.env st0.deviceNameCache src, z,
            getZoneNameP ctx1.env st0.zoneNameCache z, m) ≠ some 1) ∧
    (alook (dispatchMessage ctx2 msg2 (dispatchMessage ctx1 msg1 st0)).zoneMode
        (src, getDeviceName ctx1.env st0.deviceNameCache src, z,
          getZoneNameP ctx1.env st0.zoneNameCache z, m2) = some 1 ∧
      alook (dispatchMessage ctx2 msg2 (dispatchMessage ctx1 msg1 st0)).zoneMode
        (src, getDeviceName ctx1.env st0.deviceNameCache src, z,
          getZoneNameP ctx1.env st0.zoneNameCache z, m1) = some 0 ∧
      ∀ m, m ≠ m2 →
        alook (dispatchMessage ctx2 msg2 (dispatchMessage ctx1 msg1 st0)).zoneMode
          (src, getDeviceName ctx1.env st0.deviceNameCache src, z,
            getZoneNameP ctx1.env st0.zoneNameCache z, m) ≠ some 1) := by
  have hsd1 : srcDevice msg1 = src := by simp [srcDevice, hs1]
  have hsd2 : srcDevice msg2 = src := by simp [srcDevice, hs2]
  obtain ⟨h1zm, h1znc, h1dnc⟩ := dispatchMessage_mode_event ctx1 msg1 st0 f1 _ hp1 hm1 hn1
  simp only [hsd1, hz1, Option.getD_some, pyStr_atom_str] at h1zm
  obtain ⟨h2zm, h2znc, h2dnc⟩ :=
    dispatchMessage_mode_event ctx2 msg2 (dispatchMessage ctx1 msg1 st0) f2 _ hp2 hm2 hn2
  simp only [hsd2, hz2, Option.getD_some, pyStr_atom_str, henv, h1znc, h1dnc] at h2zm
  refine ⟨⟨?_, ?_⟩, ?_, ?_, ?_⟩
  · rw [h1zm]
    exact alook_aset_self _ _ _
  · intro m hmne
    rw [h1zm]
    rw [alook_gset_ne _ _ _ _ (fun hk => hmne (congrArg (fun t => t.2.2.2.2) hk))]
    rw [alook_foldl_clear]
    by_cases hmem : m ∈ possibleModes
    · simp [hmem]
    · simp only [hmem, if_false]
      intro hcontra
      exact hfresh _ (alook_mem hcontra) rfl
  · rw [h2zm]
    exact alook_aset_self _ _ _
  · rw [h2zm]
    rw [alook_gset_ne _ _ _ _ (fun hk => hne (congrArg (fun t => t.2.2.2.2) hk))]
    rw [alook_foldl_clear]
    simp [hin1]
  · intro m hmne
    rw [h2zm]
    rw [alook_gset_ne _ _ _ _ (fun hk => hmne (congrArg (fun t => t.2.2.2.2) hk))]
    rw [alook_foldl_clear]
    by_cases hmem : m ∈ possibleModes
    · simp [hmem]
    · simp only [hmem, if_false]
      rw [h1zm]
      have hm1ne : m ≠ m1 := fun he => hmem (he ▸ hin1)
      rw [alook_gset_ne _ _ _ _ (fun hk => hm1ne (congrArg (fun t => t.2.2.2.2) hk))]
      rw [alook_foldl_clear]
      simp only [hmem, if_false]
      intro hcontra
      exact hfresh _ (alook_mem hcontra) rfl

/-! ## Claim C10: out-of-list modes are set but never cleared -/

/-- The zone-mode rule keeps an out-of-list series at 1: the clear loop
only zeroes the six enumerated modes. -/
theorem dispatchMessage_alook_mode_one (ctx : Ctx) (msg : Msg) (s : ExpState)
    (K : String × String × PValue × String × String)
    (hK : K.2.2.2.2 ∉ possibleModes)
    (h1 : alook s.zoneMode K = some 1) :
    alook (dispatchMessage ctx msg s).zoneMode K = some 1 := by
  have hMD : ∀ t : ExpState, alook t.zoneMode K = some 1 →
      alook (ruleMode ctx msg t).zoneMode K = some 1 := by
    intro t h1t
    unfold ruleMode
    dsimp only
    (repeat' split) <;>
      first
        | exact h1t
        | exact alook_gset_clear_one _ _ _ _ _ _ _ _ hK h1t
  have hPP : ∀ t : ExpState, alook t.zoneMode K = some 1 →
      alook (payloadPhase ctx msg t).zoneMode K = some 1 := by
    intro t h1t
    unfold payloadPhase
    (repeat' split) <;> try exact h1t
    simp only [ruleBoilerStatus_pres_zoneModeF, ruleBoilerSetpoint_pres_zoneModeF,
      ruleFault_pres_zoneModeF, ruleSync_pres_zoneModeF, ruleHeatDemand_pres_zoneModeF]
    apply hMD
    simp [h1t]
  have hcap : alook (captureMessageMetrics ctx msg s).1.zoneMode K = some 1 := by
    unfold captureMessageMetrics
    rcases hd : ruleDhw ctx msg (payloadPhase ctx msg (timestampUpdate ctx (boilerTracking ctx msg
      (genericCounters ctx msg (lastSeenUpdate ctx msg s))))) with ⟨s2, err2⟩
    have h := congrArg (fun p => p.1.zoneMode) hd
    simp only [ruleDhw_pres_zoneModeF] at h
    have h3 := hPP (timestampUpdate ctx (boilerTracking ctx msg (genericCounters ctx msg
      (lastSeenUpdate ctx msg s)))) (by simp [h1])
    rw [h] at h3
    cases err2 <;> simpa using h3
  unfold dispatchMessage
  rcases hr : captureMessageMetrics ctx msg s with ⟨st1, err⟩
  rw [hr] at hcap
  cases err <;> simpa using hcap

/-- Folding the invariant of `dispatchMessage_alook_mode_one` over any
event sequence. -/
theorem foldl_dispatch_keeps_mode_one (evs : List (Ctx × Msg)) (s : ExpState)
    (K : String × String × PValue × String × String)
    (hK : K.2.2.2.2 ∉ possibleModes)
    (h1 : alook s.zoneMode K = some 1) :
    alook ((evs.foldl (fun s e => dispatchMessage e.1 e.2 s) s)).zoneMode K = some 1 := by
  induction evs generalizing s with
  | nil => exact h1
  | cons e rest ih =>
      exact ih _ (dispatchMessage_alook_mode_one e.1 e.2 s K hK h1)

/-- C10: a zone-mode event with a mode outside the fixed six-entry list
sets that series to 1, and no subsequent dispatched event (in particular
no subsequent zone-mode event for the same label combination) ever sets it
back to 0 — the clear loop zeroes only the enumerated modes. -/
theorem C10_out_of_list_mode_sticky
    (ctx : Ctx) (msg : Msg) (st0 : ExpState) (f : List (String × PValue))
    (src m : String) (hs : msg.src = some src)
    (hp : msg.payload = some (.pDict f))
    (hm : alook f "mode" = some (.atom (.pStr m)))
    (hn : alook f "name" = none)
    (hout : m ∉ possibleModes) :
    alook (dispatchMessage ctx msg st0).zoneMode
        (src, getDeviceName ctx.env st0.deviceNameCache src,
          (alook f "zone_idx").getD (.atom (.pStr "00")),
          getZoneNameP ctx.env st0.zoneNameCache
            ((alook f "zone_idx").getD (.atom (.pStr "00"))),
          m) = some 1 ∧
    ∀ evs : List (Ctx × Msg),
      alook ((evs.foldl (fun s e => dispatchMessage e.1 e.2 s)
          (dispatchMessage ctx msg st0))).zoneMode
        (src, getDeviceName ctx.env st0.deviceNameCache src,
          (alook f "zone_idx").getD (.atom (.pStr "00")),
          getZoneNameP ctx.env st0.zoneNameCache
            ((alook f "zone_idx").getD (.atom (.pStr "00"))),
          m) = some 1 := by
  have hsd : srcDevice msg = src := by simp [srcDevice, hs]
  obtain ⟨hzm, hznc, hdnc⟩ := dispatchMessage_mode_event ctx msg st0 f _ hp hm hn
  simp only [hsd, pyStr_atom_str] at hzm
  have hone : alook (dispatchMessage ctx msg st0).zoneMode
      (src, getDeviceName ctx.env st0.deviceNameCache src,
        (alook f "zone_idx").getD (.atom (.pStr "00")),
        getZoneNameP ctx.env st0.zoneNameCache
          ((alook f "zone_idx").getD (.atom (.pStr "00"))),
        m) = some 1 := by
    rw [hzm]
    exact alook_aset_self _ _ _
  exact ⟨hone, fun evs => foldl_dispatch_keeps_mode_one evs _ _ hout hone⟩

/-! ## Witnesses: concrete instantiations of the hypothesised claim theorems -/

/-- Concrete instantiation of C6 at a payload whose temperature field is
the string `not_a_number`. -/
theorem C6_witness :
    (dispatchMessage sampleCtx mBadTemp (initialState 0)).deviceTemperature
      = (initialState 0).deviceTemperature ∧
    cval (dispatchMessage sampleCtx mBadTemp (initialState 0)).messagesTotal
        (msgCode mBadTemp, msgVerb mBadTemp, msgCode mBadTemp, srcDevice mBadTemp,
          dstDevice mBadTemp,
          if getZoneForDevice (initialState 0).zoneDevicesMap (srcDevice mBadTemp) ≠ "unknown" then
            getZoneNameStr sampleCtx.env (initialState 0).zoneNameCache
              (getZoneForDevice (initialState 0).zoneDevicesMap (srcDevice mBadTemp))
          else "unknown")
      = cval (initialState 0).messagesTotal
          (msgCode mBadTemp, msgVerb mBadTemp, msgCode mBadTemp, srcDevice mBadTemp,
            dstDevice mBadTemp,
            if getZoneForDevice (initialState 0).zoneDevicesMap (srcDevice mBadTemp) ≠ "unknown" then
              getZoneNameStr sampleCtx.env (initialState 0).zoneNameCache
                (getZoneForDevice (initialState 0).zoneDevicesMap (srcDevice mBadTemp))
            else "unknown") + 1 ∧
    cval (dispatchMessage sampleCtx mBadTemp (initialState 0)).messageTypesCounter
        (msgCode mBadTemp, getCodeName sampleCtx.env mBadTemp.code, msgVerb mBadTemp)
      = cval (initialState 0).messageTypesCounter
          (msgCode mBadTemp, getCodeName sampleCtx.env mBadTemp.code, msgVerb mBadTemp) + 1 ∧
    cval (dispatchMessage sampleCtx mBadTemp (initialState 0)).deviceCommunicationsCounter
        (srcDevice mBadTemp, dstDevice mBadTemp, msgVerb mBadTemp)
      = cval (initialState 0).deviceCommunicationsCounter
          (srcDevice mBadTemp, dstDevice mBadTemp, msgVerb mBadTemp) + 1 :=
  C6_bad_temperature_recovered sampleCtx mBadTemp (initialState 0)
    [("temperature", .atom (.pStr "not_a_number"))] (.atom (.pStr "not_a_number"))
    rfl rfl (by decide)

/-- Concrete instantiation of C2 at a DHW temperature report whose source
is a DHW sensor and whose destination is the controller. -/
theorem C2_witness :
    (captureMessageMetrics sampleCtx mDhwBug (initialState 0)).2 = some PyErr.nameError ∧
    (captureMessageMetrics sampleCtx mDhwBug (initialState 0)).1.systemInfo
      = (initialState 0).systemInfo ∧
    (captureMessageMetrics sampleCtx mDhwBug (initialState 0)).1.dhwTemperature
      = (initialState 0).dhwTemperature ∧
    (captureMessageMetrics sampleCtx mDhwBug (initialState 0)).1.dhwSetpoint
      = (initialState 0).dhwSetpoint ∧
    (captureMessageMetrics sampleCtx mDhwBug (initialState 0)).1.dhwActive
      = (initialState 0).dhwActive ∧
    (captureMessageMetrics sampleCtx mDhwBug (initialState 0)).1.dhwMode
      = (initialState 0).dhwMode ∧
    cval (dispatchMessage sampleCtx mDhwBug (initialState 0)).messageErrors "NameError"
      = cval (initialState 0).messageErrors "NameError" + 1 :=
  C2_dhw_name_error sampleCtx mDhwBug (initialState 0) (by decide) (by decide)

/-- Concrete instantiation of the amended C3 at a code-0004 report naming
zone 01 `Office`. -/
theorem C3_witness :
    (alook (dispatchMessage sampleCtx mZoneName04 (initialState 0)).zoneNameCache "01").map
        CacheEntry.name = some "Office" :=
  C3_zone_name_capture_gated sampleCtx mZoneName04 (initialState 0)
    [("zone_idx", .atom (.pStr "01")), ("name", .atom (.pStr "Office"))] "01" "Office"
    rfl (Or.inl rfl) rfl rfl (by decide) (by decide) (by decide)

/-- Concrete instantiation of C7 at an event from relay 13:111111 to
boiler 10:222222, checked against a non-boiler id 04:111111. -/
theorem C7_witness :
    (cval (dispatchMessage sampleCtx mBoilerMsg (initialState 0)).boilerMessagesReceived
        (srcDevice mBoilerMsg,
          getDeviceName sampleCtx.env (initialState 0).deviceNameCache (srcDevice mBoilerMsg),
          msgCode mBoilerMsg, getCodeName sampleCtx.env (some (msgCode mBoilerMsg)))
      = cval (initialState 0).boilerMessagesReceived
          (srcDevice mBoilerMsg,
            getDeviceName sampleCtx.env (initialState 0).deviceNameCache (srcDevice mBoilerMsg),
            msgCode mBoilerMsg, getCodeName sampleCtx.env (some (msgCode mBoilerMsg))) + 1 ∧
      alook (dispatchMessage sampleCtx mBoilerMsg (initialState 0)).boilerLastSeen
          (srcDevice mBoilerMsg,
            getDeviceName sampleCtx.env (initialState 0).deviceNameCache (srcDevice mBoilerMsg))
        = some sampleCtx.now) ∧
    (cval (dispatchMessage sampleCtx mBoilerMsg (initialState 0)).boilerMessagesSent
        (dstDevice mBoilerMsg,
          getDeviceName sampleCtx.env (initialState 0).deviceNameCache (dstDevice mBoilerMsg),
          msgCode mBoilerMsg, getCodeName sampleCtx.env (some (msgCode mBoilerMsg)))
      = cval (initialState 0).boilerMessagesSent
          (dstDevice mBoilerMsg,
            getDeviceName sampleCtx.env (initialState 0).deviceNameCache (dstDevice mBoilerMsg),
            msgCode mBoilerMsg, getCodeName sampleCtx.env (some (msgCode mBoilerMsg))) + 1 ∧
      alook (dispatchMessage sampleCtx mBoilerMsg (initialState 0)).boilerLastContacted
          (dstDevice mBoilerMsg,
            getDeviceName sampleCtx.env (initialState 0).deviceNameCache (dstDevice mBoilerMsg))
        = some sampleCtx.now) ∧
    alook (dispatchMessage sampleCtx mBoilerMsg (initialState 0)).boilerMessagesSent
        ("04:111111", "", "", "")
      = alook (initialState 0).boilerMessagesSent ("04:111111", "", "", "") ∧
    alook (dispatchMessage sampleCtx mBoilerMsg (initialState 0)).boilerMessagesReceived
        ("04:111111", "", "", "")
      = alook (initialState 0).boilerMessagesReceived ("04:111111", "", "", "") := by
  have h := C7_boiler_classification sampleCtx mBoilerMsg (initialState 0)
    "04:111111" "" "" "" (by decide)
  exact ⟨h.1 (by decide), h.2.1 (by decide), h.2.2.1, h.2.2.2⟩

/-- Concrete instantiation of C8: a setpoint event with no zone index
lands on the key 00, and a heat-demand event with only a domain id lands
on that domain id. -/
theorem C8_witness :
    alook (dispatchMessage sampleCtx mSetpointMsg (initialState 0)).deviceSetpoint
        (srcDevice mSetpointMsg,
          getDeviceName sampleCtx.env (initialState 0).deviceNameCache (srcDevice mSetpointMsg),
          .atom (.pStr "00"),
          getZoneNameStr sampleCtx.env (initialState 0).zoneNameCache "00")
      = some 21 ∧
    alook (dispatchMessage sampleCtx mHeatMsg (initialState 0)).heatDemand
        (srcDevice mHeatMsg,
          getDeviceName sampleCtx.env (initialState 0).deviceNameCache (srcDevice mHeatMsg),
          (alook [("heat_demand", PValue.atom (Prim.pNum (1 / 2))),
              ("domain_id", PValue.atom (Prim.pStr "FC"))] "zone_idx").getD
            ((alook [("heat_demand", PValue.atom (Prim.pNum (1 / 2))),
                ("domain_id", PValue.atom (Prim.pStr "FC"))] "domain_id").getD
              (.atom (.pStr "00"))),
          getZoneNameP sampleCtx.env (initialState 0).zoneNameCache
            ((alook [("heat_demand", PValue.atom (Prim.pNum (1 / 2))),
                ("domain_id", PValue.atom (Prim.pStr "FC"))] "zone_idx").getD
              ((alook [("heat_demand", PValue.atom (Prim.pNum (1 / 2))),
                  ("domain_id", PValue.atom (Prim.pStr "FC"))] "domain_id").getD
                (.atom (.pStr "00")))))
      = some (1 / 2) :=
  ⟨C8_zone_key_selection.1 sampleCtx mSetpointMsg (initialState 0)
      [("setpoint", .atom (.pNum 21))] (.atom (.pNum 21)) 21 rfl rfl rfl rfl,
   C8_zone_key_selection.2 sampleCtx mHeatMsg (initialState 0)
      [("heat_demand", .atom (.pNum (1 / 2))), ("domain_id", .atom (.pStr "FC"))]
      (.atom (.pNum (1 / 2))) (1 / 2) rfl rfl rfl rfl⟩

/-- Concrete instantiation of C1 at two events for zone 0A of device
04:111111, first `follow_schedule` and then `off`. -/
theorem C1_witness :
    (alook (dispatchMessage sampleCtx mMode1 (initialState 0)).zoneMode
        ("04:111111",
          getDeviceName sampleCtx.env (initialState 0).deviceNameCache "04:111111",
          .atom (.pStr "0A"),
          getZoneNameP sampleCtx.env (initialState 0).zoneNameCache (.atom (.pStr "0A")),
          "follow_schedule") = some 1 ∧
      alook (dispatchMessage sampleCtx mMode1 (initialState 0)).zoneMode
        ("04:111111",
          getDeviceName sampleCtx.env (initialState 0).deviceNameCache "04:111111",
          .atom (.pStr "0A"),
          getZoneNameP sampleCtx.env (initialState 0).zoneNameCache (.atom (.pStr "0A")),
          "off") ≠ some 1) ∧
    (alook (dispatchMessage sampleCtx2 mMode2
          (dispatchMessage sampleCtx mMode1 (initialState 0))).zoneMode
        ("04:111111",
          getDeviceName sampleCtx.env (initialState 0).deviceNameCache "04:111111",
          .atom (.pStr "0A"),
          getZoneNameP sampleCtx.env (initialState 0).zoneNameCache (.atom (.pStr "0A")),
          "off") = some 1 ∧
      alook (dispatchMessage sampleCtx2 mMode2
          (dispatchMessage sampleCtx mMode1 (initialState 0))).zoneMode
        ("04:111111",
          getDeviceName sampleCtx.env (initialState 0).deviceNameCache "04:111111",
          .atom (.pStr "0A"),
          getZoneNameP sampleCtx.env (initialState 0).zoneNameCache (.atom (.pStr "0A")),
          "follow_schedule") = some 0 ∧
      alook (dispatchMessage sampleCtx2 mMode2
          (dispatchMessage sampleCtx mMode1 (initialState 0))).zoneMode
        ("04:111111",
          getDeviceName sampleCtx.env (initialState 0).deviceNameCache "04:111111",
          .atom (.pStr "0A"),
          getZoneNameP sampleCtx.env (initialState 0).zoneNameCache (.atom (.pStr "0A")),
          "temporary_override") ≠ some 1) := by
  have h := C1_mode_mutual_exclusion sampleCtx sampleCtx2 (initialState 0) mMode1 mMode2
    [("mode", .atom (.pStr "follow_schedule")), ("zone_idx", .atom (.pStr "0A"))]
    [("mode", .atom (.pStr "off")), ("zone_idx", .atom (.pStr "0A"))]
    "04:111111" (.atom (.pStr "0A")) "follow_schedule" "off"
    rfl rfl rfl rfl rfl rfl rfl rfl rfl rfl rfl
    (by decide) (by decide) (by decide) (by decide)
  exact ⟨⟨h.1.1, h.1.2 "off" (by decide)⟩,
    h.2.1, h.2.2.1, h.2.2.2 "temporary_override" (by decide)⟩

/-- Concrete instantiation of C10 at a zone-mode event carrying the
unlisted mode `boost`, followed by an in-list mode event for the same
zone that fails to clear it. -/
theorem C10_witness :
    alook (dispatchMessage sampleCtx mModeOut (initialState 0)).zoneMode
        ("04:111111",
          getDeviceName sampleCtx.env (initialState 0).deviceNameCache "04:111111",
          (alook [("mode", PValue.atom (Prim.pStr "boost")),
              ("zone_idx", PValue.atom (Prim.pStr "0A"))] "zone_idx").getD (.atom (.pStr "00")),
          getZoneNameP sampleCtx.env (initialState 0).zoneNameCache
            ((alook [("mode", PValue.atom (Prim.pStr "boost")),
                ("zone_idx", PValue.atom (Prim.pStr "0A"))] "zone_idx").getD
              (.atom (.pStr "00"))),
          "boost") = some 1 ∧
    alook (([((sampleCtx2 : Ctx), (mMode1 : Msg))].foldl
          (fun s e => dispatchMessage e.1 e.2 s)
          (dispatchMessage sampleCtx mModeOut (initialState 0)))).zoneMode
        ("04:111111",
          getDeviceName sampleCtx.env (initialState 0).deviceNameCache "04:111111",
          (alook [("mode", PValue.atom (Prim.pStr "boost")),
              ("zone_idx", PValue.atom (Prim.pStr "0A"))] "zone_idx").getD (.atom (.pStr "00")),
          getZoneNameP sampleCtx.env (initialState 0).zoneNameCache
            ((alook [("mode", PValue.atom (Prim.pStr "boost")),
                ("zone_idx", PValue.atom (Prim.pStr "0A"))] "zone_idx").getD
              (.atom (.pStr "00"))),
          "boost") = some 1 := by
  have h := C10_out_of_list_mode_sticky sampleCtx mModeOut (initialState 0)
    [("mode", .atom (.pStr "boost")), ("zone_idx", .atom (.pStr "0A"))]
    "04:111111" "boost" rfl rfl rfl rfl (by decide)
  exact ⟨h.1, h.2 [(sampleCtx2, mMode1)]⟩

end Ramses

